import Mathlib

/-!
# mLib adapters: the Eigen linear-solver wrapper and the Direct3D11 asset wrappers

A shallow embedding of

* `include/ext-eigen/eigenSolver.h` (`ml::LinearSolverEigen`),
* `include/application-d3d11/D3D11ConstantBuffer.h` (`D3D11ConstantBuffer`),
* `src/application-d3d11/D3D11PixelShader.cpp` (`D3D11PixelShader`),

followed by theorems about the embedded code.

Conventions.  Everything the wrappers forward to (Eigen's factorizations and
Krylov solvers, the `eigenutil` conversions, the Direct3D11 device and
immediate context, the shader compiler) is external; it appears as a
parameter (`EigenBackend`, `ShaderToolchain`, the `hr` flag of a creation
call) and is observed through a log of the calls made to it.  Fatal macros
(`MLIB_ASSERT_STR`, `MLIB_ASSERT`, `MLIB_ERROR`, `D3D_VALIDATE`) end the run.
-/

namespace ml

/-! ## Part 1: `LinearSolverEigen` -/

/-- A `MathVector<D>`: a finite sequence of entries.  Entries live in a
linearly ordered field `K` (exact arithmetic). -/
abbrev MathVector (K : Type) := List K

/-- An `ml::SparseMatrix<D>`: dimensions and the stored triples. -/
structure SparseMatrix (K : Type) where
  rows : Nat
  cols : Nat
  entries : List (Nat × Nat × K)
deriving DecidableEq

/-- Modelled from the spec: `SparseMatrix::square()` is not among the sources;
the spec's precondition "`A` is square" is rows = cols. -/
def SparseMatrix.square {K : Type} (A : SparseMatrix K) : Bool :=
  A.rows == A.cols

/-- An `Eigen::SparseMatrix<D>`. -/
structure EigenSparseMatrix (K : Type) where
  rows : Nat
  cols : Nat
  entries : List (Nat × Nat × K)
deriving DecidableEq

/-- An `Eigen::VectorXd`. -/
structure VectorXd (K : Type) where
  coeffs : List K
deriving DecidableEq

/-- The external routines `LinearSolverEigen` forwards to.  Each one is a
function of its arguments; the two Krylov solvers also receive the tolerance
passed to `setTolerance`. -/
structure EigenBackend (K : Type) where
  makeEigenMatrix : SparseMatrix K → EigenSparseMatrix K
  makeEigenVector : MathVector K → VectorXd K
  dumpEigenVector : VectorXd K → MathVector K
  simplicialLLT : EigenSparseMatrix K → VectorXd K → VectorXd K
  simplicialLDLT : EigenSparseMatrix K → VectorXd K → VectorXd K
  sparseLU : EigenSparseMatrix K → VectorXd K → VectorXd K
  sparseQR : EigenSparseMatrix K → VectorXd K → VectorXd K
  conjugateGradientDiag : ℚ → EigenSparseMatrix K → VectorXd K → VectorXd K
  biCGSTABDiag : ℚ → EigenSparseMatrix K → VectorXd K → VectorXd K
  biCGSTABIncompleteLUT : ℚ → EigenSparseMatrix K → VectorXd K → VectorXd K

/-- The tag type `LinearSolverEigen::Method`.  An unscoped enumeration is an
integer underneath, and `solveUsingMethod` casts integers to it, so a tag is
an integer; the eight enumerators are the constants below. -/
abbrev Method := Int

namespace Method
def LLT : Method := 0
def LDLT : Method := 1
def LU : Method := 2
def QR : Method := 3
def ConjugateGradient_Diag : Method := 4
def BiCGSTAB_Diag : Method := 5
def BiCGSTAB_LUT : Method := 6
def Profile : Method := 7
end Method

/-- The solver classes of Eigen that the wrapper instantiates. -/
inductive Routine
  | SimplicialLLT
  | SimplicialLDLT
  | SparseLU
  | SparseQR
  | ConjugateGradient
  | BiCGSTAB_Diagonal
  | BiCGSTAB_IncompleteLUT
deriving DecidableEq, Repr

/-- What a run of the wrapper does that is visible from outside, in order. -/
inductive Event (K : Type)
  /-- `solveUsingMethod` was entered with this tag. -/
  | enter (method : Method)
  /-- `solveUsingMethod` returned normally from the call with this tag. -/
  | leave (method : Method)
  /-- A `ComponentTimer` was constructed with this description. -/
  | timer (description : String)
  /-- `Console::log` of a fixed message. -/
  | log (message : String)
  /-- `Console::log("Max deviation from LLT: " + std::to_string(maxDeviation))`;
  the logged number is kept as a value. -/
  | deviation (maxDeviation : K)
  /-- `eigenutil::makeEigenMatrix` was called. -/
  | makeEigenMatrix
  /-- `eigenutil::makeEigenVector` was called. -/
  | makeEigenVector
  /-- A solver object of this class was built on the matrix and asked to solve. -/
  | routine (r : Routine)
deriving DecidableEq

/-- How a run can end without a result. -/
inductive Fault
  /-- A fatal macro fired (`MLIB_ASSERT_STR`, `MLIB_ERROR`) with this message. -/
  | fatal (message : String)
  /-- A vector was indexed at or beyond its size. -/
  | outOfRange
  /-- The recursion budget of the model was exhausted (not a behaviour of the code). -/
  | outOfFuel
deriving DecidableEq, Repr

/-- The outcome of a call: the events it produced and its result. -/
structure Outcome (K : Type) where
  trace : List (Event K)
  result : Except Fault (MathVector K)

/-- `LinearSolverEigen::getMethodName`. -/
def getMethodName (m : Method) : String :=
  if m = Method.LLT then "LLT"
  else if m = Method.LDLT then "LDLT"
  else if m = Method.LU then "LU"
  else if m = Method.QR then "QR"
  else if m = Method.ConjugateGradient_Diag then "ConjugateGradient_Diag"
  else if m = Method.BiCGSTAB_Diag then "BiCGSTAB_Diag"
  else if m = Method.BiCGSTAB_LUT then "BiCGSTAB_LUT"
  else if m = Method.Profile then "Profile"
  else "Unknown"

section Solver

variable {K : Type}

/-- The object state of a `LinearSolverEigen<D>`: the configured tag. -/
structure LinearSolverEigen where
  m_method : Method
deriving DecidableEq

/-- The constructor (lines 23-26); `defaultMethod` is its default argument. -/
def LinearSolverEigen.create (method : Method) : LinearSolverEigen :=
  ⟨method⟩

/-- The default argument of the constructor. -/
def LinearSolverEigen.defaultMethod : Method := Method.ConjugateGradient_Diag

/-- Prefixes the events of a caller to the outcome of its tail call. -/
def Outcome.after (pre : List (Event K)) (o : Outcome K) : Outcome K :=
  ⟨pre ++ o.trace, o.result⟩

/-- The common tail of the seven real branches: the solver was run and
`return eigenutil::dumpEigenVector<D>(x)` (line 139). -/
def finish (E : EigenBackend K) (method : Method) (trace : List (Event K))
    (r : Routine) (x : VectorXd K) : Outcome K :=
  ⟨trace ++ [Event.routine r, Event.leave method], .ok (E.dumpEigenVector x)⟩

/-- `solveLeastSquares(const Eigen::SparseMatrix<D>&, const MathVector<D>&)`
(lines 50-59). -/
def LinearSolverEigen.solveLeastSquaresEigen (E : EigenBackend K)
    (_self : LinearSolverEigen) (A : EigenSparseMatrix K) (b : MathVector K) :
    Outcome K :=
  let bEigen := E.makeEigenVector b
  let x := E.sparseQR A bEigen
  ⟨[Event.log "Solving least-squares problem using QR", Event.makeEigenVector,
    Event.routine Routine.SparseQR], .ok (E.dumpEigenVector x)⟩

/-- `solveLeastSquares(const SparseMatrix<D>&, const MathVector<D>&)`
(lines 41-48). -/
def LinearSolverEigen.solveLeastSquares (E : EigenBackend K)
    (self : LinearSolverEigen) (A : SparseMatrix K) (b : MathVector K) :
    Outcome K :=
  let eigenMatrix := E.makeEigenMatrix A
  Outcome.after [Event.makeEigenMatrix] (self.solveLeastSquaresEigen E eigenMatrix b)

/-- The solver routines a run invoked, in order. -/
def routinesOf : List (Event K) → List Routine
  | [] => []
  | Event.routine r :: rest => r :: routinesOf rest
  | _ :: rest => routinesOf rest

/-- The tags with which `solveUsingMethod` was entered during a run, in order. -/
def entriesOf : List (Event K) → List Method
  | [] => []
  | Event.enter m :: rest => m :: entriesOf rest
  | _ :: rest => entriesOf rest

/-- The greatest number of `solveUsingMethod` activations that are open at
the same time during a run: `depth` activations are open before the first
event of the list, `best` is the greatest number seen so far. -/
def maxDepthFrom : Nat → Nat → List (Event K) → Nat
  | _, best, [] => best
  | depth, best, Event.enter _ :: rest => maxDepthFrom (depth + 1) (max best (depth + 1)) rest
  | depth, best, Event.leave _ :: rest => maxDepthFrom (depth - 1) best rest
  | depth, best, _ :: rest => maxDepthFrom depth best rest

/-- The depth of the call stack of `solveUsingMethod` reached by a run. -/
def maxDepth (trace : List (Event K)) : Nat :=
  maxDepthFrom 0 0 trace

/-- The vector a real method returns: the backend routine the tag selects,
applied to the matrix and the converted right-hand side, dumped back. -/
def realResult (E : EigenBackend K) (A : EigenSparseMatrix K) (b : MathVector K)
    (r : Routine) : MathVector K :=
  match r with
  | .SimplicialLLT => E.dumpEigenVector (E.simplicialLLT A (E.makeEigenVector b))
  | .SimplicialLDLT => E.dumpEigenVector (E.simplicialLDLT A (E.makeEigenVector b))
  | .SparseLU => E.dumpEigenVector (E.sparseLU A (E.makeEigenVector b))
  | .SparseQR => E.dumpEigenVector (E.sparseQR A (E.makeEigenVector b))
  | .ConjugateGradient =>
    E.dumpEigenVector (E.conjugateGradientDiag (1 / 10 ^ 20) A (E.makeEigenVector b))
  | .BiCGSTAB_Diagonal =>
    E.dumpEigenVector (E.biCGSTABDiag (1 / 10 ^ 10) A (E.makeEigenVector b))
  | .BiCGSTAB_IncompleteLUT =>
    E.dumpEigenVector (E.biCGSTABIncompleteLUT (1 / 10 ^ 10) A (E.makeEigenVector b))

/-- The seven solver classes in the order of the enumeration. -/
def allRoutines : List Routine :=
  [.SimplicialLLT, .SimplicialLDLT, .SparseLU, .SparseQR, .ConjugateGradient,
   .BiCGSTAB_Diagonal, .BiCGSTAB_IncompleteLUT]

/-! ### Reading a run -/

/-- The tag of the real method that instantiates a solver class. -/
def methodOf : Routine → Method
  | .SimplicialLLT => Method.LLT
  | .SimplicialLDLT => Method.LDLT
  | .SparseLU => Method.LU
  | .SparseQR => Method.QR
  | .ConjugateGradient => Method.ConjugateGradient_Diag
  | .BiCGSTAB_Diagonal => Method.BiCGSTAB_Diag
  | .BiCGSTAB_IncompleteLUT => Method.BiCGSTAB_LUT

/-- The events of one call of a real method. -/
def realTrace (r : Routine) : List (Event K) :=
  [Event.enter (methodOf r),
   Event.timer ("Solving using method: " ++ getMethodName (methodOf r)),
   Event.makeEigenVector, Event.routine r, Event.leave (methodOf r)]

/-- The deviations a run reported, each paired with the tag of the recursive
call that returned last before the report. -/
def reportsOf : Option Method → List (Event K) → List (Option Method × K)
  | _, [] => []
  | _, Event.leave m :: rest => reportsOf (some m) rest
  | last, Event.deviation d :: rest => (last, d) :: reportsOf last rest
  | last, _ :: rest => reportsOf last rest

/-- The eight enumerators of `Method`, in the order of the enumeration. -/
def allMethods : List Method :=
  [Method.LLT, Method.LDLT, Method.LU, Method.QR, Method.ConjugateGradient_Diag,
   Method.BiCGSTAB_Diag, Method.BiCGSTAB_LUT, Method.Profile]

/-- The six real methods other than `LLT`, in the order of the enumeration. -/
def comparedRoutines : List Routine :=
  [.SimplicialLDLT, .SparseLU, .SparseQR, .ConjugateGradient, .BiCGSTAB_Diagonal,
   .BiCGSTAB_IncompleteLUT]

variable [LinearOrderedField K]

/-- The inner loop of the `Profile` branch (lines 126-128):
`maxDeviation = std::max(maxDeviation, fabs(results[methodIndex][variableIndex] - results[0][variableIndex]))`
for `variableIndex` from its current value while `remaining` iterations are
left (`remaining = b.size() - variableIndex`).  `none` when an index is out
of range.  Indices are natural numbers: `b.size()` is taken to fit the
`UINT` counter. -/
def maxDeviationLoop (results : List (MathVector K)) (methodIndex : Nat) :
    Nat → Nat → K → Option K
  | 0, _, maxDeviation => some maxDeviation
  | remaining + 1, variableIndex, maxDeviation =>
    match results.get? methodIndex, results.get? 0 with
    | some rk, some r0 =>
      match rk.get? variableIndex, r0.get? variableIndex with
      | some x, some y =>
        maxDeviationLoop results methodIndex remaining (variableIndex + 1)
          (max maxDeviation |x - y|)
      | _, _ => none
    | _, _ => none

/-- The outer loop of the `Profile` branch (lines 121-132), from
`methodIndex` with `remaining = methodCount - methodIndex` iterations left,
then `return results[0]`.  `recurse` is the recursive call
`solveUsingMethod(A, b, ·)`. -/
def profileLoop (recurse : Method → Outcome K) (b : MathVector K) :
    Nat → Nat → List (MathVector K) → List (Event K) → Outcome K
  | 0, _, results, trace =>
    match results.get? 0 with
    | some r0 => ⟨trace ++ [Event.leave Method.Profile], .ok r0⟩
    | none => ⟨trace, .error Fault.outOfRange⟩
  | remaining + 1, methodIndex, results, trace =>
    let r := recurse (methodIndex : Int)
    match r.result with
    | .error e => ⟨trace ++ r.trace, .error e⟩
    | .ok x =>
      if methodIndex < results.length then
        let results1 := results.set methodIndex x
        let trace1 := trace ++ r.trace
        if methodIndex ≠ 0 then
          match maxDeviationLoop results1 methodIndex b.length 0 0 with
          | some maxDeviation =>
            profileLoop recurse b remaining (methodIndex + 1) results1
              (trace1 ++ [Event.deviation maxDeviation])
          | none => ⟨trace1, .error Fault.outOfRange⟩
        else
          profileLoop recurse b remaining (methodIndex + 1) results1 trace1
      else ⟨trace ++ r.trace, .error Fault.outOfRange⟩

/-- `LinearSolverEigen::solveUsingMethod` (lines 62-140).  The first argument
bounds the depth of the call stack: an activation needs one unit, and a call
that finds none left ends with `outOfFuel`.
Modelled from the spec: the macro `MLIB_ERROR` is not among the sources;
unknown tags fail fatally. -/
def solveUsingMethod (E : EigenBackend K) :
    Nat → EigenSparseMatrix K → MathVector K → Method → Outcome K
  | 0, _, _, _ => ⟨[], .error Fault.outOfFuel⟩
  | fuel + 1, A, b, method =>
    let trace : List (Event K) :=
      [Event.enter method,
       Event.timer ("Solving using method: " ++ getMethodName method),
       Event.makeEigenVector]
    let bEigen := E.makeEigenVector b
    if method = Method.LLT then
      finish E method trace Routine.SimplicialLLT (E.simplicialLLT A bEigen)
    else if method = Method.LDLT then
      finish E method trace Routine.SimplicialLDLT (E.simplicialLDLT A bEigen)
    else if method = Method.LU then
      finish E method trace Routine.SparseLU (E.sparseLU A bEigen)
    else if method = Method.QR then
      finish E method trace Routine.SparseQR (E.sparseQR A bEigen)
    else if method = Method.ConjugateGradient_Diag then
      finish E method trace Routine.ConjugateGradient
        (E.conjugateGradientDiag (1 / 10 ^ 20) A bEigen)
    else if method = Method.BiCGSTAB_Diag then
      finish E method trace Routine.BiCGSTAB_Diagonal
        (E.biCGSTABDiag (1 / 10 ^ 10) A bEigen)
    else if method = Method.BiCGSTAB_LUT then
      finish E method trace Routine.BiCGSTAB_IncompleteLUT
        (E.biCGSTABIncompleteLUT (1 / 10 ^ 10) A bEigen)
    else if method = Method.Profile then
      let methodCount : Nat := Int.toNat Method.Profile
      profileLoop (fun m => solveUsingMethod E fuel A b m) b methodCount 0
        (List.replicate methodCount [])
        (trace ++ [Event.log "Profiling all eigen linear solvers"])
    else
      ⟨trace, .error (Fault.fatal "Unknown method")⟩

/-- `solve(const Eigen::SparseMatrix<D>&, const MathVector<D>&)` (lines 36-39). -/
def LinearSolverEigen.solveEigen (E : EigenBackend K) (fuel : Nat)
    (self : LinearSolverEigen) (A : EigenSparseMatrix K) (b : MathVector K) :
    Outcome K :=
  solveUsingMethod E fuel A b self.m_method

/-- `solve(const SparseMatrix<D>&, const MathVector<D>&)` (lines 28-34).
Modelled from the spec: `MLIB_ASSERT_STR` is not among the sources; a violated
assertion is fatal. -/
def LinearSolverEigen.solve (E : EigenBackend K) (fuel : Nat)
    (self : LinearSolverEigen) (A : SparseMatrix K) (b : MathVector K) :
    Outcome K :=
  if A.square && b.length == A.rows then
    let eigenMatrix := E.makeEigenMatrix A
    Outcome.after [Event.makeEigenMatrix] (self.solveEigen E fuel eigenMatrix b)
  else
    ⟨[], .error (Fault.fatal "invalid solve dimensions")⟩

/-- Every real method returns a vector that has an entry at each index of `b`,
so that the deviation loop of `Profile` indexes inside the vectors. -/
def ResultsCover (E : EigenBackend K) (A : EigenSparseMatrix K) (b : MathVector K) : Prop :=
  ∀ r ∈ allRoutines, b.length ≤ (realResult E A b r).length

instance (E : EigenBackend K) (A : EigenSparseMatrix K) (b : MathVector K) :
    Decidable (ResultsCover E A b) := by
  unfold ResultsCover; infer_instance

/-- The value the deviation loop computes when every index is in range:
the running maximum from index `variableIndex` on, `remaining` entries long. -/
def maxDeviationFrom (rk r0 : MathVector K) : Nat → Nat → K → K
  | 0, _, maxDeviation => maxDeviation
  | remaining + 1, variableIndex, maxDeviation =>
    maxDeviationFrom rk r0 remaining (variableIndex + 1)
      (max maxDeviation |rk.getD variableIndex 0 - r0.getD variableIndex 0|)

/-- The deviation of `rk` from `r0` over the first `n` indices. -/
def maxDeviation (rk r0 : MathVector K) (n : Nat) : K :=
  maxDeviationFrom rk r0 n 0 0

/-- `d` is the maximum over all indices `i < n` of `|rk[i] - r0[i]|`, and 0
when `n = 0`: it is non-negative, bounds every component-wise absolute
difference, and is attained by some component when `n` is positive. -/
def IsMaxDeviation (rk r0 : MathVector K) (n : Nat) (d : K) : Prop :=
  0 ≤ d ∧
  (∀ i, i < n → ∃ x y, rk.get? i = some x ∧ r0.get? i = some y ∧ |x - y| ≤ d) ∧
  (0 < n → ∃ i, i < n ∧ ∃ x y, rk.get? i = some x ∧ r0.get? i = some y ∧ d = |x - y|) ∧
  (n = 0 → d = 0)

/-- The deviation `Profile` reports for a real method: that of its result
from the `LLT` result over the indices of `b`. -/
def reportedDeviation (E : EigenBackend K) (A : EigenSparseMatrix K) (b : MathVector K)
    (r : Routine) : K :=
  maxDeviation (realResult E A b r) (realResult E A b .SimplicialLLT) b.length

/-- The events of a `Profile` call. -/
def profileTrace (E : EigenBackend K) (A : EigenSparseMatrix K) (b : MathVector K) :
    List (Event K) :=
  [Event.enter Method.Profile,
   Event.timer ("Solving using method: " ++ getMethodName Method.Profile),
   Event.makeEigenVector,
   Event.log "Profiling all eigen linear solvers"]
  ++ realTrace .SimplicialLLT
  ++ realTrace .SimplicialLDLT ++ [Event.deviation (reportedDeviation E A b .SimplicialLDLT)]
  ++ realTrace .SparseLU ++ [Event.deviation (reportedDeviation E A b .SparseLU)]
  ++ realTrace .SparseQR ++ [Event.deviation (reportedDeviation E A b .SparseQR)]
  ++ realTrace .ConjugateGradient
  ++ [Event.deviation (reportedDeviation E A b .ConjugateGradient)]
  ++ realTrace .BiCGSTAB_Diagonal
  ++ [Event.deviation (reportedDeviation E A b .BiCGSTAB_Diagonal)]
  ++ realTrace .BiCGSTAB_IncompleteLUT
  ++ [Event.deviation (reportedDeviation E A b .BiCGSTAB_IncompleteLUT)]
  ++ [Event.leave Method.Profile]

end Solver

/-! ### A small concrete backend, used to run the embedding -/

/-- A diagonal solve: entry `i` of the result is `b[i] / A[i,i]` (0 where the
diagonal entry is absent), one entry per column of `A`. -/
def diagonalSolve (A : EigenSparseMatrix ℚ) (b : VectorXd ℚ) : VectorXd ℚ :=
  ⟨(List.range A.cols).map (fun i =>
    match A.entries.find? (fun e => e.1 == i && e.2.1 == i) with
    | some e => b.coeffs.getD i 0 / e.2.2
    | none => 0)⟩

/-- A backend whose direct methods solve the diagonal part of the system and
whose iterative methods stop short of it by the tolerance they were given. -/
def sampleBackend : EigenBackend ℚ where
  makeEigenMatrix := fun A => ⟨A.rows, A.cols, A.entries⟩
  makeEigenVector := fun b => ⟨b⟩
  dumpEigenVector := fun x => x.coeffs
  simplicialLLT := diagonalSolve
  simplicialLDLT := diagonalSolve
  sparseLU := diagonalSolve
  sparseQR := diagonalSolve
  conjugateGradientDiag := fun tol A b => ⟨(diagonalSolve A b).coeffs.map (fun x => x + tol)⟩
  biCGSTABDiag := fun tol A b => ⟨(diagonalSolve A b).coeffs.map (fun x => x - tol)⟩
  biCGSTABIncompleteLUT := fun tol A b => ⟨(diagonalSolve A b).coeffs.map (fun x => x + 2 * tol)⟩

/-- The system `diag(2, 4) x = (2, 8)`. -/
def sampleMatrix : SparseMatrix ℚ := ⟨2, 2, [(0, 0, 2), (1, 1, 4)]⟩

/-- The same system as an Eigen matrix. -/
def sampleEigenMatrix : EigenSparseMatrix ℚ := ⟨2, 2, [(0, 0, 2), (1, 1, 4)]⟩

/-- The right-hand side `(2, 8)`. -/
def sampleRhs : MathVector ℚ := [2, 8]

/-- A 2-by-3 matrix: not square. -/
def wideEigenMatrix : EigenSparseMatrix ℚ := ⟨2, 3, [(0, 0, 2), (1, 1, 4)]⟩

end ml

/-! ## Part 2: the Direct3D11 asset wrappers -/

namespace d3d11

/-- A COM interface pointer (`ID3D11Buffer*`, `ID3D11PixelShader*`,
`ID3DBlob*`): `none` is `NULL`, `some id` points to the object `id`. -/
abbrev Handle := Option Nat

/-- The fields of `D3D11_BUFFER_DESC` that `reset` sets; `ZeroMemory` clears the others. -/
structure D3D11_BUFFER_DESC where
  Usage : Nat
  ByteWidth : Nat
  BindFlags : Nat
  CPUAccessFlags : Nat
deriving DecidableEq, Repr

/-- `D3D11_USAGE_DEFAULT`. -/
def D3D11_USAGE_DEFAULT : Nat := 0

/-- `D3D11_BIND_CONSTANT_BUFFER`. -/
def D3D11_BIND_CONSTANT_BUFFER : Nat := 4

/-- The objects the device creates for the wrappers. -/
inductive DeviceObject
  | buffer (desc : D3D11_BUFFER_DESC)
  | pixelShader (bytecode : List Nat)
deriving DecidableEq, Repr

/-- What the wrappers do to the outside world, in order: calls that reach the
device, the immediate context, the COM objects and the shader compiler. -/
inductive DeviceEvent
  /-- A creation call of the device succeeded and returned object `id`. -/
  | created (id : Nat) (obj : DeviceObject)
  /-- `Release()` was called on the device object `id`. -/
  | released (id : Nat)
  /-- `CompileShader` returned the blob `id` holding `bytecode`. -/
  | blobCreated (id : Nat) (bytecode : List Nat)
  /-- `Release()` was called on the blob `id`. -/
  | blobReleased (id : Nat)
  /-- `CompileShader` was called. -/
  | compileShader (filename entryPoint shaderModel : String)
  /-- `registerAsset` was called for the asset with this hash. -/
  | registerAsset (hash64 : Nat)
  /-- `context().UpdateSubresource(buffer, 0, NULL, &data, 0, 0)`. -/
  | UpdateSubresource (buffer : Handle) (data : List Nat)
  /-- `context().VSSetConstantBuffers(slot, 1, &buffer)`. -/
  | VSSetConstantBuffers (slot : Nat) (buffer : Handle)
  /-- `context().PSSetConstantBuffers(slot, 1, &buffer)`. -/
  | PSSetConstantBuffers (slot : Nat) (buffer : Handle)
  /-- `context().PSSetShader(shader, NULL, 0)`. -/
  | PSSetShader (shader : Handle)
deriving DecidableEq, Repr

/-- The `GraphicsDevice` as the wrappers see it: the log of what was done to
it, and the identity the next created object will get. -/
structure GraphicsDevice where
  log : List DeviceEvent
  nextId : Nat
deriving DecidableEq, Repr

/-- A device on which nothing has happened yet. -/
def GraphicsDevice.fresh : GraphicsDevice := ⟨[], 0⟩

/-- Appends an event to the log of the device. -/
def GraphicsDevice.record (g : GraphicsDevice) (e : DeviceEvent) : GraphicsDevice :=
  ⟨g.log ++ [e], g.nextId⟩

/-- Why the process stopped. -/
inductive Crash
  /-- A fatal macro fired (`D3D_VALIDATE`, `MLIB_ASSERT`). -/
  | fatal (message : String)
  /-- A null pointer was dereferenced. -/
  | nullDereference
  /-- A pointer to an object that is not a live blob was dereferenced. -/
  | invalidPointer
deriving DecidableEq, Repr

/-- The outcome of an operation: the device afterwards, and the adapter
afterwards or the crash that ended the process. -/
abbrev Result (σ : Type) := GraphicsDevice × Except Crash σ

/-- Modelled from the spec: the macro `SAFE_RELEASE` is not among the sources;
it is "if the handle is non-null, call Release on it and set it to null".
This is the macro applied to a device-object pointer. -/
def SAFE_RELEASE (g : GraphicsDevice) (p : Handle) : GraphicsDevice × Handle :=
  match p with
  | none => (g, none)
  | some id => (g.record (DeviceEvent.released id), none)

/-- Modelled from the spec: `SAFE_RELEASE` (see above) applied to a blob pointer. -/
def SAFE_RELEASE_blob (g : GraphicsDevice) (p : Handle) : GraphicsDevice × Handle :=
  match p with
  | none => (g, none)
  | some id => (g.record (DeviceEvent.blobReleased id), none)

/-- A creation call of the device (`CreateBuffer`, `CreatePixelShader`): `hr`
tells whether the device answers with a success code; on success a new object
exists and its pointer is returned. -/
def createObject (hr : Bool) (g : GraphicsDevice) (obj : DeviceObject) :
    GraphicsDevice × Bool × Handle :=
  if hr then
    (⟨g.log ++ [DeviceEvent.created g.nextId obj], g.nextId + 1⟩, true, some g.nextId)
  else
    (g, false, none)

/-! ### `D3D11ConstantBuffer<T>` -/

/-- The object state of a `D3D11ConstantBuffer<T>`. -/
structure D3D11ConstantBuffer where
  m_buffer : Handle
deriving DecidableEq, Repr

namespace D3D11ConstantBuffer

/-- The constructor (lines 6-9): `m_buffer = NULL`. -/
def construct : D3D11ConstantBuffer := ⟨none⟩

/-- `release` (lines 19-22). -/
def release (g : GraphicsDevice) (self : D3D11ConstantBuffer) :
    GraphicsDevice × D3D11ConstantBuffer :=
  let r := SAFE_RELEASE g self.m_buffer
  (r.1, ⟨r.2⟩)

/-- `reset` (lines 24-35); `sizeofT` is `sizeof(T)`.
Modelled from the spec: the macro `D3D_VALIDATE` is not among the sources;
allocation failure is fatal. -/
def reset (sizeofT : Nat) (hr : Bool) (g : GraphicsDevice) (self : D3D11ConstantBuffer) :
    Result D3D11ConstantBuffer :=
  let r := release g self
  let desc : D3D11_BUFFER_DESC :=
    ⟨D3D11_USAGE_DEFAULT, sizeofT, D3D11_BIND_CONSTANT_BUFFER, 0⟩
  let c := createObject hr r.1 (DeviceObject.buffer desc)
  if c.2.1 then (c.1, .ok ⟨c.2.2⟩)
  else (c.1, .error (Crash.fatal "D3D_VALIDATE"))

/-- `init` (lines 14-17). -/
def init (sizeofT : Nat) (hr : Bool) (g : GraphicsDevice) (self : D3D11ConstantBuffer) :
    Result D3D11ConstantBuffer :=
  reset sizeofT hr g self

/-- `update` (lines 37-40). -/
def update (g : GraphicsDevice) (self : D3D11ConstantBuffer) (data : List Nat) :
    GraphicsDevice × D3D11ConstantBuffer :=
  (g.record (DeviceEvent.UpdateSubresource self.m_buffer data), self)

/-- `bindVertexShader` (lines 42-45). -/
def bindVertexShader (g : GraphicsDevice) (self : D3D11ConstantBuffer)
    (constantBufferIndex : Nat) : GraphicsDevice × D3D11ConstantBuffer :=
  (g.record (DeviceEvent.VSSetConstantBuffers constantBufferIndex self.m_buffer), self)

/-- `bindPixelShader` (lines 47-50). -/
def bindPixelShader (g : GraphicsDevice) (self : D3D11ConstantBuffer)
    (constantBufferIndex : Nat) : GraphicsDevice × D3D11ConstantBuffer :=
  (g.record (DeviceEvent.PSSetConstantBuffers constantBufferIndex self.m_buffer), self)

end D3D11ConstantBuffer

/-- A call of a public operation of `D3D11ConstantBuffer`, with the answer of
the device where the operation creates an object. -/
inductive BufferOp
  | init (hr : Bool)
  | release
  | reset (hr : Bool)
  | update (data : List Nat)
  | bindVertexShader (constantBufferIndex : Nat)
  | bindPixelShader (constantBufferIndex : Nat)
deriving DecidableEq, Repr

/-- Performs one operation. -/
def BufferOp.apply (sizeofT : Nat) (g : GraphicsDevice) (self : D3D11ConstantBuffer) :
    BufferOp → Result D3D11ConstantBuffer
  | .init hr => self.init sizeofT hr g
  | .release => ((self.release g).1, .ok (self.release g).2)
  | .reset hr => self.reset sizeofT hr g
  | .update data => ((self.update g data).1, .ok (self.update g data).2)
  | .bindVertexShader i => ((self.bindVertexShader g i).1, .ok (self.bindVertexShader g i).2)
  | .bindPixelShader i => ((self.bindPixelShader g i).1, .ok (self.bindPixelShader g i).2)

/-- Performs a sequence of operations; a crash ends the sequence. -/
def runBuffer (sizeofT : Nat) :
    List BufferOp → GraphicsDevice → D3D11ConstantBuffer → Result D3D11ConstantBuffer
  | [], g, self => (g, .ok self)
  | op :: rest, g, self =>
    match op.apply sizeofT g self with
    | (g1, .ok self1) => runBuffer sizeofT rest g1 self1
    | (g1, .error c) => (g1, .error c)

/-! ### `D3D11PixelShader` -/

/-- The shader compiler and the string hash, both external. -/
structure ShaderToolchain where
  /-- `D3D11Utility::CompileShader`: the bytecode, or `none` for the `NULL`
  blob of a failed compile. -/
  CompileShader : String → String → String → Option (List Nat)
  /-- `String::hash64`. -/
  hash64 : String → Nat

/-- The object state of a `D3D11PixelShader`. -/
structure D3D11PixelShader where
  m_shader : Handle
  m_blob : Handle
  m_filename : String
  m_hash64 : Nat
deriving DecidableEq, Repr

/-- The bytecode held by the event, if the event is the creation of the blob `id`. -/
def blobCreatedWith (id : Nat) : DeviceEvent → Option (List Nat)
  | .blobCreated j code => if j = id then some code else none
  | _ => none

/-- The bytecode a blob pointer gives access to: that of the blob `id` if it
was created and not released. -/
def blobContents (log : List DeviceEvent) (id : Nat) : Option (List Nat) :=
  if DeviceEvent.blobReleased id ∈ log then none
  else log.findSome? (blobCreatedWith id)

namespace D3D11PixelShader

/-- Modelled from the spec: the constructor of `D3D11PixelShader` is not among
the sources; a new shader adapter is in the `Unloaded` state, with no
bytecode and no device object. -/
def construct : D3D11PixelShader := ⟨none, none, "", 0⟩

/-- `release` (lines 17-20). -/
def release (g : GraphicsDevice) (self : D3D11PixelShader) :
    GraphicsDevice × D3D11PixelShader :=
  let r := SAFE_RELEASE g self.m_shader
  (r.1, ⟨r.2, self.m_blob, self.m_filename, self.m_hash64⟩)

/-- `reset` (lines 22-29).
Modelled from the spec: the macro `D3D_VALIDATE` is not among the sources;
failure of device-object creation is fatal. -/
def reset (hr : Bool) (g : GraphicsDevice) (self : D3D11PixelShader) :
    Result D3D11PixelShader :=
  let r := release g self
  match r.2.m_blob with
  | none => (r.1, .error Crash.nullDereference)
  | some blob =>
    match blobContents r.1.log blob with
    | none => (r.1, .error Crash.invalidPointer)
    | some bytecode =>
      let c := createObject hr r.1 (DeviceObject.pixelShader bytecode)
      if c.2.1 then (c.1, .ok ⟨c.2.2, r.2.m_blob, r.2.m_filename, r.2.m_hash64⟩)
      else (c.1, .error (Crash.fatal "D3D_VALIDATE"))

/-- `load` (lines 2-15).
Modelled from the spec: the macro `MLIB_ASSERT` is not among the sources; a
compile error is fatal. -/
def load (T : ShaderToolchain) (hr : Bool) (g : GraphicsDevice) (self : D3D11PixelShader)
    (filename : String) : Result D3D11PixelShader :=
  let r := release g self
  let b := SAFE_RELEASE_blob r.1 r.2.m_blob
  let hash := T.hash64 filename
  let g1 := b.1.record (DeviceEvent.registerAsset hash)
  let g2 := g1.record (DeviceEvent.compileShader filename "pixelShaderMain" "ps_4_0")
  match T.CompileShader filename "pixelShaderMain" "ps_4_0" with
  | none => (g2, .error (Crash.fatal "CompileShader failed"))
  | some bytecode =>
    let g3 : GraphicsDevice :=
      ⟨g2.log ++ [DeviceEvent.blobCreated g2.nextId bytecode], g2.nextId + 1⟩
    reset hr g3 ⟨r.2.m_shader, some g2.nextId, filename, hash⟩

/-- `bind` (lines 31-35). -/
def bind (g : GraphicsDevice) (self : D3D11PixelShader) :
    GraphicsDevice × D3D11PixelShader :=
  (g.record (DeviceEvent.PSSetShader self.m_shader), self)

end D3D11PixelShader

/-- A call of a public operation of `D3D11PixelShader`, with the answer of the
device where the operation creates an object. -/
inductive ShaderOp
  | load (hr : Bool) (filename : String)
  | release
  | reset (hr : Bool)
  | bind
deriving DecidableEq, Repr

/-- Performs one operation. -/
def ShaderOp.apply (T : ShaderToolchain) (g : GraphicsDevice) (self : D3D11PixelShader) :
    ShaderOp → Result D3D11PixelShader
  | .load hr filename => self.load T hr g filename
  | .release => ((self.release g).1, .ok (self.release g).2)
  | .reset hr => self.reset hr g
  | .bind => ((self.bind g).1, .ok (self.bind g).2)

/-- Performs a sequence of operations; a crash ends the sequence. -/
def runShader (T : ShaderToolchain) :
    List ShaderOp → GraphicsDevice → D3D11PixelShader → Result D3D11PixelShader
  | [], g, self => (g, .ok self)
  | op :: rest, g, self =>
    match op.apply T g self with
    | (g1, .ok self1) => runShader T rest g1 self1
    | (g1, .error c) => (g1, .error c)

/-! ### Reading the log -/

/-- The device objects created, in order of creation. -/
def createdIds (log : List DeviceEvent) : List Nat :=
  log.filterMap (fun e => match e with | DeviceEvent.created id _ => some id | _ => none)

/-- The device objects on which `Release()` was called, one entry per call. -/
def releasedIds (log : List DeviceEvent) : List Nat :=
  log.filterMap (fun e => match e with | DeviceEvent.released id => some id | _ => none)

/-- The live device objects: created and not released. -/
def liveIds (log : List DeviceEvent) : List Nat :=
  (createdIds log).filter (fun id => id ∉ releasedIds log)

/-- The handle a call to the immediate context passes, for the events that are such calls. -/
def contextHandle : DeviceEvent → Option Handle
  | .UpdateSubresource buffer _ => some buffer
  | .VSSetConstantBuffers _ buffer => some buffer
  | .PSSetConstantBuffers _ buffer => some buffer
  | .PSSetShader shader => some shader
  | _ => none

/-- The number of calls of `CompileShader`. -/
def compileCount (log : List DeviceEvent) : Nat :=
  (log.filter (fun e => match e with | DeviceEvent.compileShader _ _ _ => true | _ => false)).length

/-- The bytecode of each pixel-shader object created, in order of creation. -/
def shaderBytecodes (log : List DeviceEvent) : List (List Nat) :=
  log.filterMap (fun e =>
    match e with
    | DeviceEvent.created _ (DeviceObject.pixelShader code) => some code
    | _ => none)

/-- A toolchain that compiles `"ok.hlsl"` to three bytes and fails on every other file. -/
def sampleToolchain : ShaderToolchain where
  CompileShader := fun filename _ _ => if filename = "ok.hlsl" then some [1, 2, 3] else none
  hash64 := fun filename => filename.length

/-- The device after `load(g, "ok.hlsl")` on a new shader adapter. -/
def sampleShaderDevice : GraphicsDevice :=
  ⟨[DeviceEvent.registerAsset 7,
    DeviceEvent.compileShader "ok.hlsl" "pixelShaderMain" "ps_4_0",
    DeviceEvent.blobCreated 0 [1, 2, 3],
    DeviceEvent.created 1 (DeviceObject.pixelShader [1, 2, 3])], 2⟩

/-- The shader adapter after `load(g, "ok.hlsl")`. -/
def sampleShader : D3D11PixelShader := ⟨some 1, some 0, "ok.hlsl", 7⟩

/-! ### Invariants and properties of logs -/

/-- The log and the handle of an adapter agree. -/
structure Consistent (g : GraphicsDevice) (h : Handle) : Prop where
  fresh : ∀ id ∈ createdIds g.log, id < g.nextId
  created_nodup : (createdIds g.log).Nodup
  released_nodup : (releasedIds g.log).Nodup
  released_sub : ∀ id ∈ releasedIds g.log, id ∈ createdIds g.log
  live : liveIds g.log = h.toList

/-- Events that neither create nor release a device object. -/
def DeviceEvent.isNeutral : DeviceEvent → Bool
  | .created _ _ => false
  | .released _ => false
  | _ => true

/-- The handle is non-null and points to a device object that was created
earlier and has not been released since. -/
def PassesAllocated (earlier : List DeviceEvent) (h : Handle) : Prop :=
  ∃ id, h = some id ∧ id ∈ createdIds earlier ∧ id ∉ releasedIds earlier

/-- Every call that reaches the immediate context passes a non-null handle to
a device object created earlier and not released since. -/
def BoundOnlyAfterReset (log : List DeviceEvent) : Prop :=
  ∀ earlier e later h, log = earlier ++ e :: later → contextHandle e = some h →
    PassesAllocated earlier h

/-- The handle is the current one of the adapter: `NULL` when the adapter holds
no live device object, and otherwise the pointer to its only live object,
which was created earlier and has not been released since. -/
def PassesCurrent (earlier : List DeviceEvent) (h : Handle) : Prop :=
  (h = none ∧ liveIds earlier = []) ∨
  (liveIds earlier = h.toList ∧ PassesAllocated earlier h)

/-- Every call that reaches the immediate context passes the current handle. -/
def CallsPassCurrent (log : List DeviceEvent) : Prop :=
  ∀ earlier e later h, log = earlier ++ e :: later → contextHandle e = some h →
    PassesCurrent earlier h

/-- The blobs mentioned in the log, created or released. -/
def blobIds (log : List DeviceEvent) : List Nat :=
  log.filterMap (fun e =>
    match e with
    | DeviceEvent.blobCreated id _ => some id
    | DeviceEvent.blobReleased id => some id
    | _ => none)

/-- Events that are not about blobs. -/
def DeviceEvent.isBlobFree : DeviceEvent → Bool
  | .blobCreated _ _ => false
  | .blobReleased _ => false
  | _ => true

/-- Every blob mentioned in the log is older than the next object. -/
def BlobFresh (g : GraphicsDevice) : Prop :=
  ∀ id ∈ blobIds g.log, id < g.nextId

/-- The log and the state of a pixel-shader adapter agree. -/
structure ShaderInv (g : GraphicsDevice) (s : D3D11PixelShader) : Prop where
  consistent : Consistent g s.m_shader
  blobFresh : BlobFresh g
  blobValid : ∀ b, s.m_blob = some b → ∃ code, blobContents g.log b = some code

/-- Whether the operation is `load`. -/
def ShaderOp.isLoad : ShaderOp → Bool
  | .load _ _ => true
  | _ => false

/-- From the log `before` to the log `after`, the blob `blob` still holds
`code`, the compiler was not called, and every pixel-shader object created in
between was created from `code`. -/
def KeepsBlob (blob : Nat) (code : List Nat) (before after : List DeviceEvent) : Prop :=
  blobContents after blob = some code ∧
  compileCount after = compileCount before ∧
  ∃ more, shaderBytecodes after = shaderBytecodes before ++ more ∧ ∀ c ∈ more, c = code

end d3d11

/-! ## Theorems, part 1: `LinearSolverEigen` -/

namespace ml

section SolverFacts

variable {K : Type} [LinearOrderedField K]

theorem solveUsingMethod_real (E : EigenBackend K) (fuel : Nat)
    (A : EigenSparseMatrix K) (b : MathVector K) (r : Routine) :
    solveUsingMethod E (fuel + 1) A b (methodOf r)
      = ⟨realTrace r, .ok (realResult E A b r)⟩ := by
  cases r <;>
    simp [solveUsingMethod, finish, methodOf, realTrace, realResult, Method.LLT, Method.LDLT,
      Method.LU, Method.QR, Method.ConjugateGradient_Diag, Method.BiCGSTAB_Diag,
      Method.BiCGSTAB_LUT, Method.Profile]

theorem get?_eq_some_getD (l : List K) (i : Nat) (h : i < l.length) :
    l.get? i = some (l.getD i 0) := by
  simp [List.getD, List.get?_eq_getElem?, List.getElem?_eq_getElem h]

theorem maxDeviationLoop_eq_from (results : List (MathVector K)) (k : Nat)
    (rk r0 : MathVector K) (hk : results.get? k = some rk) (h0 : results.get? 0 = some r0) :
    ∀ (n i0 : Nat) (d : K), i0 + n ≤ rk.length → i0 + n ≤ r0.length →
      maxDeviationLoop results k n i0 d = some (maxDeviationFrom rk r0 n i0 d) := by
  intro n
  induction n with
  | zero => intro i0 d _ _; rfl
  | succ n ih =>
    intro i0 d h1 h2
    have hi1 : i0 < rk.length := by omega
    have hi2 : i0 < r0.length := by omega
    have e1 := get?_eq_some_getD rk i0 hi1
    have e2 := get?_eq_some_getD r0 i0 hi2
    simp only [maxDeviationLoop, maxDeviationFrom, hk, h0, e1, e2]
    exact ih (i0 + 1) _ (by omega) (by omega)

theorem maxDeviationLoop_eq (results : List (MathVector K)) (k : Nat)
    (rk r0 : MathVector K) (hk : results.get? k = some rk) (h0 : results.get? 0 = some r0)
    (n : Nat) (h1 : n ≤ rk.length) (h2 : n ≤ r0.length) :
    maxDeviationLoop results k n 0 0 = some (maxDeviation rk r0 n) :=
  maxDeviationLoop_eq_from results k rk r0 hk h0 n 0 0 (by omega) (by omega)

theorem maxDeviationFrom_spec (rk r0 : MathVector K) :
    ∀ (n i0 : Nat) (d : K), i0 + n ≤ rk.length → i0 + n ≤ r0.length →
      d ≤ maxDeviationFrom rk r0 n i0 d ∧
      (∀ i, i0 ≤ i → i < i0 + n →
        |rk.getD i 0 - r0.getD i 0| ≤ maxDeviationFrom rk r0 n i0 d) ∧
      (maxDeviationFrom rk r0 n i0 d = d ∨
        ∃ i, i0 ≤ i ∧ i < i0 + n ∧
          maxDeviationFrom rk r0 n i0 d = |rk.getD i 0 - r0.getD i 0|) := by
  intro n
  induction n with
  | zero =>
    intro i0 d _ _
    refine ⟨le_refl _, ?_, Or.inl rfl⟩
    intro i h1 h2; omega
  | succ n ih =>
    intro i0 d h1 h2
    obtain ⟨hle, hub, hatt⟩ :=
      ih (i0 + 1) (max d |rk.getD i0 0 - r0.getD i0 0|) (by omega) (by omega)
    simp only [maxDeviationFrom]
    refine ⟨le_trans (le_max_left _ _) hle, ?_, ?_⟩
    · intro i hi1 hi2
      rcases Nat.eq_or_lt_of_le hi1 with h | h
      · subst h; exact le_trans (le_max_right _ _) hle
      · exact hub i h (by omega)
    · rcases hatt with h | ⟨i, hi1, hi2, hi3⟩
      · rcases max_choice d |rk.getD i0 0 - r0.getD i0 0| with hm | hm
        · left; rw [h, hm]
        · right; exact ⟨i0, le_refl _, by omega, by rw [h, hm]⟩
      · right; exact ⟨i, by omega, by omega, hi3⟩

theorem maxDeviation_spec (rk r0 : MathVector K) (n : Nat)
    (h1 : n ≤ rk.length) (h2 : n ≤ r0.length) :
    IsMaxDeviation rk r0 n (maxDeviation rk r0 n) := by
  obtain ⟨hle, hub, hatt⟩ := maxDeviationFrom_spec rk r0 n 0 0 (by omega) (by omega)
  have get1 : ∀ i, i < n → rk.get? i = some (rk.getD i 0) := by
    intro i hi
    exact get?_eq_some_getD rk i (by omega)
  have get2 : ∀ i, i < n → r0.get? i = some (r0.getD i 0) := by
    intro i hi
    exact get?_eq_some_getD r0 i (by omega)
  refine ⟨hle, ?_, ?_, ?_⟩
  · intro i hi
    exact ⟨_, _, get1 i hi, get2 i hi, hub i (Nat.zero_le _) (by omega)⟩
  · intro hn
    rcases hatt with h | ⟨i, _, hi2, hi3⟩
    · refine ⟨0, hn, _, _, get1 0 hn, get2 0 hn, ?_⟩
      have hb := hub 0 (le_refl _) (by omega)
      show maxDeviationFrom rk r0 n 0 0 = _
      rw [h] at hb ⊢
      exact le_antisymm (abs_nonneg _) hb
    · exact ⟨i, by omega, _, _, get1 i (by omega), get2 i (by omega), hi3⟩
  · intro hn
    subst hn
    rfl

theorem solveUsingMethod_profile (E : EigenBackend K) (fuel : Nat)
    (A : EigenSparseMatrix K) (b : MathVector K) (hcover : ResultsCover E A b) :
    solveUsingMethod E (fuel + 2) A b Method.Profile
      = ⟨profileTrace E A b, .ok (realResult E A b .SimplicialLLT)⟩ := by
  have c0 := hcover .SimplicialLLT (by simp [allRoutines])
  have c1 := hcover .SimplicialLDLT (by simp [allRoutines])
  have c2 := hcover .SparseLU (by simp [allRoutines])
  have c3 := hcover .SparseQR (by simp [allRoutines])
  have c4 := hcover .ConjugateGradient (by simp [allRoutines])
  have c5 := hcover .BiCGSTAB_Diagonal (by simp [allRoutines])
  have c6 := hcover .BiCGSTAB_IncompleteLUT (by simp [allRoutines])
  have s0 : solveUsingMethod E (fuel + 1) A b (0 : Int) = _ :=
    solveUsingMethod_real E fuel A b .SimplicialLLT
  have s1 : solveUsingMethod E (fuel + 1) A b (1 : Int) = _ :=
    solveUsingMethod_real E fuel A b .SimplicialLDLT
  have s2 : solveUsingMethod E (fuel + 1) A b (2 : Int) = _ :=
    solveUsingMethod_real E fuel A b .SparseLU
  have s3 : solveUsingMethod E (fuel + 1) A b (3 : Int) = _ :=
    solveUsingMethod_real E fuel A b .SparseQR
  have s4 : solveUsingMethod E (fuel + 1) A b (4 : Int) = _ :=
    solveUsingMethod_real E fuel A b .ConjugateGradient
  have s5 : solveUsingMethod E (fuel + 1) A b (5 : Int) = _ :=
    solveUsingMethod_real E fuel A b .BiCGSTAB_Diagonal
  have s6 : solveUsingMethod E (fuel + 1) A b (6 : Int) = _ :=
    solveUsingMethod_real E fuel A b .BiCGSTAB_IncompleteLUT
  have d1 := maxDeviationLoop_eq
    [realResult E A b .SimplicialLLT, realResult E A b .SimplicialLDLT, [], [], [], [], []]
    1 _ _ rfl rfl b.length c1 c0
  have d2 := maxDeviationLoop_eq
    [realResult E A b .SimplicialLLT, realResult E A b .SimplicialLDLT, realResult E A b .SparseLU, [], [], [], []]
    2 _ _ rfl rfl b.length c2 c0
  have d3 := maxDeviationLoop_eq
    [realResult E A b .SimplicialLLT, realResult E A b .SimplicialLDLT, realResult E A b .SparseLU, realResult E A b .SparseQR, [], [], []]
    3 _ _ rfl rfl b.length c3 c0
  have d4 := maxDeviationLoop_eq
    [realResult E A b .SimplicialLLT, realResult E A b .SimplicialLDLT, realResult E A b .SparseLU, realResult E A b .SparseQR, realResult E A b .ConjugateGradient, [], []]
    4 _ _ rfl rfl b.length c4 c0
  have d5 := maxDeviationLoop_eq
    [realResult E A b .SimplicialLLT, realResult E A b .SimplicialLDLT, realResult E A b .SparseLU, realResult E A b .SparseQR, realResult E A b .ConjugateGradient, realResult E A b .BiCGSTAB_Diagonal, []]
    5 _ _ rfl rfl b.length c5 c0
  have d6 := maxDeviationLoop_eq
    [realResult E A b .SimplicialLLT, realResult E A b .SimplicialLDLT, realResult E A b .SparseLU, realResult E A b .SparseQR, realResult E A b .ConjugateGradient, realResult E A b .BiCGSTAB_Diagonal, realResult E A b .BiCGSTAB_IncompleteLUT]
    6 _ _ rfl rfl b.length c6 c0
  rw [solveUsingMethod]
  simp [Method.LLT, Method.LDLT, Method.LU, Method.QR,
      Method.ConjugateGradient_Diag, Method.BiCGSTAB_Diag, Method.BiCGSTAB_LUT,
      Method.Profile, profileLoop, s0, s1, s2, s3, s4, s5, s6, d1, d2, d3, d4, d5, d6,
      profileTrace, reportedDeviation]

theorem profileLoop_error_ne (recurse : Method → Outcome K) (b : MathVector K) (e : Fault)
    (he : e ≠ Fault.outOfRange) :
    ∀ (remaining methodIndex : Nat) (results : List (MathVector K)) (trace : List (Event K)),
      (∀ k : Nat, methodIndex ≤ k → k < methodIndex + remaining →
        (recurse (k : Int)).result ≠ .error e) →
      (profileLoop recurse b remaining methodIndex results trace).result ≠ .error e := by
  intro remaining
  induction remaining with
  | zero =>
    intro methodIndex results trace _
    unfold profileLoop
    split
    · simp
    · simpa using fun h => he h.symm
  | succ n ih =>
    intro methodIndex results trace hrec
    have hcall := hrec methodIndex (le_refl _) (by omega)
    have hnext : ∀ k : Nat, methodIndex + 1 ≤ k → k < methodIndex + 1 + n →
        (recurse (k : Int)).result ≠ .error e :=
      fun k h1 h2 => hrec k (by omega) (by omega)
    unfold profileLoop
    simp only
    split
    · rename_i e1 heq
      intro h
      apply hcall
      rw [heq]
      simpa using h
    · split
      · split
        · split
          · exact ih _ _ _ hnext
          · simpa using fun h => he h.symm
        · exact ih _ _ _ hnext
      · simpa using fun h => he h.symm

theorem solveUsingMethod_profile_error_ne (E : EigenBackend K) (fuel : Nat)
    (A : EigenSparseMatrix K) (b : MathVector K) (e : Fault) (he : e ≠ Fault.outOfRange) :
    (solveUsingMethod E (fuel + 2) A b Method.Profile).result ≠ .error e := by
  rw [solveUsingMethod]
  simp only [Method.LLT, Method.LDLT, Method.LU, Method.QR,
      Method.ConjugateGradient_Diag, Method.BiCGSTAB_Diag, Method.BiCGSTAB_LUT,
      Method.Profile]
  simp only [show ¬ ((7 : Int) = 0) by decide, show ¬ ((7 : Int) = 1) by decide,
    show ¬ ((7 : Int) = 2) by decide, show ¬ ((7 : Int) = 3) by decide,
    show ¬ ((7 : Int) = 4) by decide, show ¬ ((7 : Int) = 5) by decide,
    show ¬ ((7 : Int) = 6) by decide, if_false, if_true]
  apply profileLoop_error_ne _ _ _ he
  intro k _ hk
  have hk7 : k < 7 := by simpa using hk
  have key : ∀ r : Routine,
      (solveUsingMethod E (fuel + 1) A b (methodOf r)).result ≠ .error e := by
    intro r; rw [solveUsingMethod_real]; simp
  interval_cases k
  · exact key .SimplicialLLT
  · exact key .SimplicialLDLT
  · exact key .SparseLU
  · exact key .SparseQR
  · exact key .ConjugateGradient
  · exact key .BiCGSTAB_Diagonal
  · exact key .BiCGSTAB_IncompleteLUT

theorem solveUsingMethod_unknown (E : EigenBackend K) (fuel : Nat)
    (A : EigenSparseMatrix K) (b : MathVector K) (m : Int)
    (hm : m < 0 ∨ 7 < m) :
    solveUsingMethod E (fuel + 1) A b m
      = ⟨[Event.enter m, Event.timer "Solving using method: Unknown",
          Event.makeEigenVector], .error (Fault.fatal "Unknown method")⟩ := by
  have h0 : m ≠ 0 := by omega
  have h1 : m ≠ 1 := by omega
  have h2 : m ≠ 2 := by omega
  have h3 : m ≠ 3 := by omega
  have h4 : m ≠ 4 := by omega
  have h5 : m ≠ 5 := by omega
  have h6 : m ≠ 6 := by omega
  have h7 : m ≠ 7 := by omega
  simp [solveUsingMethod, getMethodName, Method.LLT, Method.LDLT, Method.LU, Method.QR,
      Method.ConjugateGradient_Diag, Method.BiCGSTAB_Diag, Method.BiCGSTAB_LUT,
      Method.Profile, h0, h1, h2, h3, h4, h5, h6, h7]

/-- The `ml::SparseMatrix` overload of `solve` checks the dimensions first:
on a non-square matrix or a right-hand side of the wrong length it ends with
the fatal assertion and has made no call into the backend. -/
theorem solve_rejects_invalid_dimensions (E : EigenBackend K) (fuel : Nat)
    (self : LinearSolverEigen) (A : SparseMatrix K) (b : MathVector K)
    (hbad : A.rows ≠ A.cols ∨ b.length ≠ A.rows) :
    self.solve E fuel A b = ⟨[], .error (Fault.fatal "invalid solve dimensions")⟩ := by
  unfold LinearSolverEigen.solve SparseMatrix.square
  rcases hbad with h | h <;> simp [h]

theorem solveUsingMethod_profile_cases (E : EigenBackend K) (fuel : Nat)
    (A : EigenSparseMatrix K) (b : MathVector K) :
    ((solveUsingMethod E (fuel + 2) A b Method.Profile).result
        = .ok (realResult E A b .SimplicialLLT) ∨
      (solveUsingMethod E (fuel + 2) A b Method.Profile).result = .error Fault.outOfRange) ∧
    entriesOf (solveUsingMethod E (fuel + 2) A b Method.Profile).trace
      <+: [Method.Profile, Method.LLT, Method.LDLT, Method.LU, Method.QR,
          Method.ConjugateGradient_Diag, Method.BiCGSTAB_Diag, Method.BiCGSTAB_LUT] ∧
    maxDepth (solveUsingMethod E (fuel + 2) A b Method.Profile).trace ≤ 2 := by
  have s0 : solveUsingMethod E (fuel + 1) A b (0 : Int) = _ :=
    solveUsingMethod_real E fuel A b .SimplicialLLT
  have s1 : solveUsingMethod E (fuel + 1) A b (1 : Int) = _ :=
    solveUsingMethod_real E fuel A b .SimplicialLDLT
  have s2 : solveUsingMethod E (fuel + 1) A b (2 : Int) = _ :=
    solveUsingMethod_real E fuel A b .SparseLU
  have s3 : solveUsingMethod E (fuel + 1) A b (3 : Int) = _ :=
    solveUsingMethod_real E fuel A b .SparseQR
  have s4 : solveUsingMethod E (fuel + 1) A b (4 : Int) = _ :=
    solveUsingMethod_real E fuel A b .ConjugateGradient
  have s5 : solveUsingMethod E (fuel + 1) A b (5 : Int) = _ :=
    solveUsingMethod_real E fuel A b .BiCGSTAB_Diagonal
  have s6 : solveUsingMethod E (fuel + 1) A b (6 : Int) = _ :=
    solveUsingMethod_real E fuel A b .BiCGSTAB_IncompleteLUT
  rw [solveUsingMethod]
  simp only [Method.LLT, Method.LDLT, Method.LU, Method.QR,
      Method.ConjugateGradient_Diag, Method.BiCGSTAB_Diag, Method.BiCGSTAB_LUT,
      Method.Profile]
  simp [profileLoop, s0, s1, s2, s3, s4, s5, s6]
  repeat' split
  all_goals
    simp [realTrace, entriesOf, maxDepth, maxDepthFrom, methodOf, Method.LLT, Method.LDLT,
      Method.LU, Method.QR, Method.ConjugateGradient_Diag, Method.BiCGSTAB_Diag,
      Method.BiCGSTAB_LUT, Method.Profile]

end SolverFacts

/-- C1 (the code at the failing input): the `Eigen::SparseMatrix` overload of
`solve` has no dimension check.  On the 2-by-3 matrix `wideEigenMatrix` and a
right-hand side of length 2, with tag `LLT`, it goes straight to
`solveUsingMethod`, which converts `b`, runs `SimplicialLLT` and returns a
vector; the "invalid solve dimensions" assertion is not reached. -/
theorem solveEigen_skips_dimension_check :
    wideEigenMatrix.rows ≠ wideEigenMatrix.cols ∧
    LinearSolverEigen.solveEigen sampleBackend 1 (LinearSolverEigen.create Method.LLT)
        wideEigenMatrix sampleRhs
      = ⟨[Event.enter Method.LLT, Event.timer "Solving using method: LLT",
          Event.makeEigenVector, Event.routine Routine.SimplicialLLT,
          Event.leave Method.LLT], .ok [1, 2, 0]⟩ := by
  refine ⟨by decide, ?_⟩
  have hr : List.range 3 = [0, 1, 2] := rfl
  simp [LinearSolverEigen.solveEigen, LinearSolverEigen.create, solveUsingMethod, finish,
    Method.LLT, getMethodName, sampleBackend, diagonalSolve, wideEigenMatrix, sampleRhs, hr,
    List.find?]
  norm_num

section SolverClaims

variable {K : Type} [LinearOrderedField K]

/-- C2: the dispatch of `solveUsingMethod` is exhaustive and fails loudly
otherwise.  Each of the seven real tags takes its own branch and returns the
dumped result of its routine; `Profile` takes its branch, never ends in the
"Unknown method" error (it ends with the `LLT` vector, or in an out-of-range
read of the deviation loop) and returns the `LLT` vector when the results
cover the indices of `b`; every tag outside the eight enumerators ends in the
fatal "Unknown method" error, having run no solver routine. -/
theorem solveUsingMethod_dispatch_exhaustive (E : EigenBackend K) (fuel : Nat)
    (A : EigenSparseMatrix K) (b : MathVector K) :
    allMethods = allRoutines.map methodOf ++ [Method.Profile] ∧
    (∀ r : Routine, solveUsingMethod E (fuel + 2) A b (methodOf r)
        = ⟨realTrace r, .ok (realResult E A b r)⟩) ∧
    (solveUsingMethod E (fuel + 2) A b Method.Profile).result
        ≠ .error (Fault.fatal "Unknown method") ∧
    ((solveUsingMethod E (fuel + 2) A b Method.Profile).result
        = .ok (realResult E A b .SimplicialLLT) ∨
      (solveUsingMethod E (fuel + 2) A b Method.Profile).result = .error Fault.outOfRange) ∧
    (ResultsCover E A b →
      (solveUsingMethod E (fuel + 2) A b Method.Profile).result
        = .ok (realResult E A b .SimplicialLLT)) ∧
    (∀ m : Method, m ∉ allMethods →
      (solveUsingMethod E (fuel + 2) A b m).result = .error (Fault.fatal "Unknown method") ∧
      routinesOf (solveUsingMethod E (fuel + 2) A b m).trace = []) := by
  refine ⟨rfl, fun r => solveUsingMethod_real E (fuel + 1) A b r,
    solveUsingMethod_profile_error_ne E fuel A b _ (by simp),
    (solveUsingMethod_profile_cases E fuel A b).1, ?_, ?_⟩
  · intro hcover
    rw [solveUsingMethod_profile E fuel A b hcover]
  · intro m hm
    have key : ∀ z : Int, z ∉ allMethods → z < 0 ∨ 7 < z := by
      intro z hz
      simp only [allMethods, Method.LLT, Method.LDLT, Method.LU, Method.QR,
        Method.ConjugateGradient_Diag, Method.BiCGSTAB_Diag, Method.BiCGSTAB_LUT,
        Method.Profile, List.mem_cons, List.mem_singleton, List.not_mem_nil, not_or,
        or_false] at hz
      omega
    have hm' := key m hm
    rw [solveUsingMethod_unknown E (fuel + 1) A b m hm']
    exact ⟨rfl, rfl⟩

/-- C2 at a concrete system: the sample backend covers the indices of the
right-hand side and 8 is not an enumerator, so `Profile` returns the `LLT`
vector and the tag 8 ends in the fatal error. -/
theorem solveUsingMethod_dispatch_exhaustive_witness :
    ResultsCover sampleBackend sampleEigenMatrix sampleRhs ∧
    (8 : Method) ∉ allMethods ∧
    (solveUsingMethod sampleBackend 2 sampleEigenMatrix sampleRhs Method.Profile).result
      = .ok (realResult sampleBackend sampleEigenMatrix sampleRhs .SimplicialLLT) ∧
    (solveUsingMethod sampleBackend 2 sampleEigenMatrix sampleRhs 8).result
      = .error (Fault.fatal "Unknown method") :=
  ⟨by decide, by decide,
   (solveUsingMethod_dispatch_exhaustive sampleBackend 0 sampleEigenMatrix
      sampleRhs).2.2.2.2.1 (by decide),
   ((solveUsingMethod_dispatch_exhaustive sampleBackend 0 sampleEigenMatrix
      sampleRhs).2.2.2.2.2 8 (by decide)).1⟩

/-- C5: in `Profile` mode exactly one deviation is reported after each of the
six real methods other than `LLT`, in the order of the enumeration, and none
for `LLT`; the value reported for a method is the maximum over the indices
`i < b.size()` of `|result_k[i] - result_LLT[i]|` (0 when `b` is empty): it
is non-negative, bounds every component-wise absolute difference, and is
attained by some component when `b` is non-empty. -/
theorem profile_reported_deviations (E : EigenBackend K) (fuel : Nat)
    (A : EigenSparseMatrix K) (b : MathVector K) (hcover : ResultsCover E A b) :
    reportsOf none (solveUsingMethod E (fuel + 2) A b Method.Profile).trace
      = comparedRoutines.map (fun r => (some (methodOf r), reportedDeviation E A b r)) ∧
    (∀ r ∈ comparedRoutines,
      IsMaxDeviation (realResult E A b r) (realResult E A b .SimplicialLLT) b.length
        (reportedDeviation E A b r)) := by
  constructor
  · rw [solveUsingMethod_profile E fuel A b hcover]
    rfl
  · intro r hr
    have hmem : r ∈ allRoutines := by
      simp only [comparedRoutines, List.mem_cons, List.mem_singleton, List.not_mem_nil,
        or_false] at hr
      rcases hr with h | h | h | h | h | h <;> subst h <;> simp [allRoutines]
    exact maxDeviation_spec _ _ _ (hcover r hmem) (hcover .SimplicialLLT (by simp [allRoutines]))

/-- C5 at a concrete system, for the conjugate-gradient method. -/
theorem profile_reported_deviations_witness :
    ResultsCover sampleBackend sampleEigenMatrix sampleRhs ∧
    Routine.ConjugateGradient ∈ comparedRoutines ∧
    IsMaxDeviation (realResult sampleBackend sampleEigenMatrix sampleRhs .ConjugateGradient)
      (realResult sampleBackend sampleEigenMatrix sampleRhs .SimplicialLLT) sampleRhs.length
      (reportedDeviation sampleBackend sampleEigenMatrix sampleRhs .ConjugateGradient) :=
  ⟨by decide, by decide,
   (profile_reported_deviations sampleBackend 0 sampleEigenMatrix sampleRhs (by decide)).2
     .ConjugateGradient (by decide)⟩

end SolverClaims

/-- C6: `solveLeastSquares` does not depend on the configured tag.  For two
solvers constructed with any two tags, both overloads perform the same single
`SparseQR` solve and return the same vector. -/
theorem solveLeastSquares_ignores_method {K : Type} (E : EigenBackend K) (m1 m2 : Method)
    (A : SparseMatrix K) (A1 : EigenSparseMatrix K) (b : MathVector K) :
    (LinearSolverEigen.create m1).solveLeastSquares E A b
      = (LinearSolverEigen.create m2).solveLeastSquares E A b ∧
    (LinearSolverEigen.create m1).solveLeastSquaresEigen E A1 b
      = (LinearSolverEigen.create m2).solveLeastSquaresEigen E A1 b ∧
    routinesOf ((LinearSolverEigen.create m1).solveLeastSquares E A b).trace
      = [Routine.SparseQR] ∧
    ((LinearSolverEigen.create m1).solveLeastSquares E A b).result
      = .ok (E.dumpEigenVector (E.sparseQR (E.makeEigenMatrix A) (E.makeEigenVector b))) :=
  ⟨rfl, rfl, rfl, rfl⟩

end ml

/-! ## Theorems, part 2: the Direct3D11 asset wrappers -/

namespace d3d11

theorem consistent_fresh : Consistent GraphicsDevice.fresh none :=
  ⟨by simp [GraphicsDevice.fresh, createdIds], by simp [GraphicsDevice.fresh, createdIds],
   by simp [GraphicsDevice.fresh, releasedIds], by simp [GraphicsDevice.fresh, releasedIds],
   by simp [GraphicsDevice.fresh, liveIds, createdIds]⟩

theorem createdIds_append_neutral (log : List DeviceEvent) (e : DeviceEvent)
    (he : e.isNeutral = true) : createdIds (log ++ [e]) = createdIds log := by
  cases e <;> simp_all [createdIds, DeviceEvent.isNeutral]

theorem releasedIds_append_neutral (log : List DeviceEvent) (e : DeviceEvent)
    (he : e.isNeutral = true) : releasedIds (log ++ [e]) = releasedIds log := by
  cases e <;> simp_all [releasedIds, DeviceEvent.isNeutral]

theorem liveIds_append_neutral (log : List DeviceEvent) (e : DeviceEvent)
    (he : e.isNeutral = true) : liveIds (log ++ [e]) = liveIds log := by
  simp [liveIds, createdIds_append_neutral log e he, releasedIds_append_neutral log e he]

theorem consistent_neutral {g : GraphicsDevice} {h : Handle} (hc : Consistent g h)
    (e : DeviceEvent) (he : e.isNeutral = true) (n : Nat) (hn : g.nextId ≤ n) :
    Consistent ⟨g.log ++ [e], n⟩ h := by
  refine ⟨?_, ?_, ?_, ?_, ?_⟩
  · intro id hid
    rw [createdIds_append_neutral _ _ he] at hid
    exact lt_of_lt_of_le (hc.fresh id hid) hn
  · simpa [createdIds_append_neutral _ _ he] using hc.created_nodup
  · simpa [releasedIds_append_neutral _ _ he] using hc.released_nodup
  · intro id hid
    simp only [createdIds_append_neutral _ _ he, releasedIds_append_neutral _ _ he] at hid ⊢
    exact hc.released_sub id hid
  · simpa [liveIds_append_neutral _ _ he] using hc.live

theorem SAFE_RELEASE_snd (g : GraphicsDevice) (h : Handle) : (SAFE_RELEASE g h).2 = none := by
  cases h <;> rfl

theorem consistent_release {g : GraphicsDevice} {h : Handle} (hc : Consistent g h) :
    Consistent (SAFE_RELEASE g h).1 none := by
  cases h with
  | none => exact hc
  | some id =>
    have hlive : liveIds g.log = [id] := by simpa using hc.live
    have hmem : id ∈ liveIds g.log := by simp [hlive]
    have hcr : id ∈ createdIds g.log := (List.mem_filter.mp hmem).1
    have hnr : id ∉ releasedIds g.log := by simpa using (List.mem_filter.mp hmem).2
    have e1 : createdIds (g.log ++ [DeviceEvent.released id]) = createdIds g.log := by
      simp [createdIds]
    have e2 : releasedIds (g.log ++ [DeviceEvent.released id]) = releasedIds g.log ++ [id] := by
      simp [releasedIds]
    refine ⟨?_, ?_, ?_, ?_, ?_⟩
    · intro j hj
      simp only [SAFE_RELEASE, GraphicsDevice.record, e1] at hj ⊢
      exact hc.fresh j hj
    · simpa [SAFE_RELEASE, GraphicsDevice.record, e1] using hc.created_nodup
    · simp only [SAFE_RELEASE, GraphicsDevice.record, e2]
      exact List.Nodup.append hc.released_nodup (List.nodup_singleton id)
        (by simpa using hnr)
    · intro j hj
      simp only [SAFE_RELEASE, GraphicsDevice.record, e1, e2, List.mem_append,
        List.mem_singleton] at hj ⊢
      rcases hj with hj | hj
      · exact hc.released_sub j hj
      · exact hj ▸ hcr
    · simp only [SAFE_RELEASE, GraphicsDevice.record, liveIds, e1, e2, Option.toList]
      rw [List.filter_eq_nil_iff]
      intro j hj
      simp only [List.mem_append, List.mem_singleton, not_or, decide_eq_true_eq, not_and,
        not_not]
      intro hjr
      have : j ∈ liveIds g.log := List.mem_filter.mpr ⟨hj, by simpa using hjr⟩
      rw [hlive] at this
      simpa using this

theorem consistent_create {g : GraphicsDevice} (hc : Consistent g none) (obj : DeviceObject) :
    Consistent ⟨g.log ++ [DeviceEvent.created g.nextId obj], g.nextId + 1⟩ (some g.nextId) := by
  have hlive : liveIds g.log = [] := by simpa using hc.live
  have e1 : createdIds (g.log ++ [DeviceEvent.created g.nextId obj])
      = createdIds g.log ++ [g.nextId] := by simp [createdIds]
  have e2 : releasedIds (g.log ++ [DeviceEvent.created g.nextId obj]) = releasedIds g.log := by
    simp [releasedIds]
  have hnew : g.nextId ∉ createdIds g.log := fun h => lt_irrefl _ (hc.fresh _ h)
  refine ⟨?_, ?_, ?_, ?_, ?_⟩
  · intro j hj
    simp only [e1, List.mem_append, List.mem_singleton] at hj
    show j < g.nextId + 1
    rcases hj with hj | hj
    · exact Nat.lt_succ_of_lt (hc.fresh j hj)
    · omega
  · simp only [e1]
    exact List.Nodup.append hc.created_nodup (List.nodup_singleton _) (by simpa using hnew)
  · simpa [e2] using hc.released_nodup
  · intro j hj
    simp only [e1, e2, List.mem_append] at hj ⊢
    exact Or.inl (hc.released_sub j hj)
  · simp only [liveIds, e1, e2, List.filter_append, Option.toList]
    have h1 : List.filter (fun id => decide (id ∉ releasedIds g.log)) (createdIds g.log) = [] :=
      hlive
    rw [h1]
    have : g.nextId ∉ releasedIds g.log := fun h => hnew (hc.released_sub _ h)
    simp [this]

theorem passesCurrent_of_consistent {g : GraphicsDevice} {h : Handle}
    (hc : Consistent g h) : PassesCurrent g.log h := by
  cases h with
  | none => exact Or.inl ⟨rfl, by simpa using hc.live⟩
  | some id =>
    have hlive : liveIds g.log = [id] := by simpa using hc.live
    have hmem : id ∈ liveIds g.log := by simp [hlive]
    exact Or.inr ⟨hc.live, id, rfl, (List.mem_filter.mp hmem).1,
      by simpa using (List.mem_filter.mp hmem).2⟩

theorem split_append_singleton {α : Type} (log earlier later : List α) (e x : α)
    (h : log ++ [e] = earlier ++ x :: later) :
    (later = [] ∧ earlier = log ∧ x = e) ∨
    (∃ later1, later = later1 ++ [e] ∧ log = earlier ++ x :: later1) := by
  rcases List.eq_nil_or_concat later with hl | ⟨later1, y, hl⟩
  · subst hl
    have := List.append_inj' h (by simp)
    exact Or.inl ⟨rfl, this.1.symm, by simpa using this.2.symm⟩
  · subst hl
    have h1 : log ++ [e] = (earlier ++ x :: later1) ++ [y] := by simpa using h
    have := List.append_inj' h1 (by simp)
    refine Or.inr ⟨later1, ?_, this.1⟩
    have hy : e = y := by simpa using this.2
    rw [hy, List.concat_eq_append]

theorem callsPassCurrent_nil : CallsPassCurrent [] := by
  intro earlier e later h heq
  simp at heq

theorem callsPassCurrent_append {log : List DeviceEvent} (hl : CallsPassCurrent log)
    (e : DeviceEvent) (he : ∀ h, contextHandle e = some h → PassesCurrent log h) :
    CallsPassCurrent (log ++ [e]) := by
  intro earlier x later h heq hx
  rcases split_append_singleton log earlier later e x heq with ⟨_, h2, h3⟩ | ⟨later1, _, h2⟩
  · subst h2 h3
    exact he h hx
  · exact hl earlier x later1 h h2 hx

theorem callsPassCurrent_release {g : GraphicsDevice} (hl : CallsPassCurrent g.log)
    (h : Handle) : CallsPassCurrent (SAFE_RELEASE g h).1.log := by
  cases h with
  | none => exact hl
  | some id => exact callsPassCurrent_append hl _ (by simp [contextHandle])

theorem callsPassCurrent_create {g : GraphicsDevice} (hl : CallsPassCurrent g.log)
    (hr : Bool) (obj : DeviceObject) : CallsPassCurrent (createObject hr g obj).1.log := by
  cases hr with
  | false => exact hl
  | true => exact callsPassCurrent_append hl _ (by simp [contextHandle])

theorem buffer_step (sizeofT : Nat) (op : BufferOp) {g : GraphicsDevice}
    {s : D3D11ConstantBuffer} (hc : Consistent g s.m_buffer) (hl : CallsPassCurrent g.log) :
    CallsPassCurrent (op.apply sizeofT g s).1.log ∧
    ∀ s1, (op.apply sizeofT g s).2 = .ok s1 → Consistent (op.apply sizeofT g s).1 s1.m_buffer := by
  have hcur := passesCurrent_of_consistent hc
  have hreset : ∀ hr, CallsPassCurrent (s.reset sizeofT hr g).1.log ∧
      ∀ s1, (s.reset sizeofT hr g).2 = .ok s1 → Consistent (s.reset sizeofT hr g).1 s1.m_buffer := by
    intro hr
    have h1 := consistent_release hc
    have l1 := callsPassCurrent_release hl s.m_buffer
    cases hr with
    | false =>
      simp [D3D11ConstantBuffer.reset, D3D11ConstantBuffer.release, createObject]
      exact l1
    | true =>
      have h2 := consistent_create h1
        (DeviceObject.buffer ⟨D3D11_USAGE_DEFAULT, sizeofT, D3D11_BIND_CONSTANT_BUFFER, 0⟩)
      have l2 := callsPassCurrent_create l1 true
        (DeviceObject.buffer ⟨D3D11_USAGE_DEFAULT, sizeofT, D3D11_BIND_CONSTANT_BUFFER, 0⟩)
      refine ⟨by simpa [D3D11ConstantBuffer.reset, D3D11ConstantBuffer.release, createObject]
        using l2, ?_⟩
      intro s1 hs1
      simp only [D3D11ConstantBuffer.reset, D3D11ConstantBuffer.release, createObject,
        if_true, Except.ok.injEq] at hs1
      subst hs1
      exact h2
  cases op with
  | init hr => exact hreset hr
  | reset hr => exact hreset hr
  | release =>
    refine ⟨callsPassCurrent_release hl s.m_buffer, ?_⟩
    intro s1 hs1
    simp only [BufferOp.apply, D3D11ConstantBuffer.release, Except.ok.injEq] at hs1
    subst hs1
    show Consistent (SAFE_RELEASE g s.m_buffer).1 (SAFE_RELEASE g s.m_buffer).2
    rw [SAFE_RELEASE_snd]
    exact consistent_release hc
  | update data =>
    refine ⟨callsPassCurrent_append hl _ ?_, ?_⟩
    · intro h hh
      simp only [contextHandle, Option.some.injEq] at hh
      exact hh ▸ hcur
    · intro s1 hs1
      simp only [BufferOp.apply, D3D11ConstantBuffer.update, Except.ok.injEq] at hs1
      subst hs1
      exact consistent_neutral hc (DeviceEvent.UpdateSubresource s.m_buffer data) rfl _
        (le_refl _)
  | bindVertexShader i =>
    refine ⟨callsPassCurrent_append hl _ ?_, ?_⟩
    · intro h hh
      simp only [contextHandle, Option.some.injEq] at hh
      exact hh ▸ hcur
    · intro s1 hs1
      simp only [BufferOp.apply, D3D11ConstantBuffer.bindVertexShader, Except.ok.injEq] at hs1
      subst hs1
      exact consistent_neutral hc (DeviceEvent.VSSetConstantBuffers i s.m_buffer) rfl _
        (le_refl _)
  | bindPixelShader i =>
    refine ⟨callsPassCurrent_append hl _ ?_, ?_⟩
    · intro h hh
      simp only [contextHandle, Option.some.injEq] at hh
      exact hh ▸ hcur
    · intro s1 hs1
      simp only [BufferOp.apply, D3D11ConstantBuffer.bindPixelShader, Except.ok.injEq] at hs1
      subst hs1
      exact consistent_neutral hc (DeviceEvent.PSSetConstantBuffers i s.m_buffer) rfl _
        (le_refl _)

theorem runBuffer_invariant (sizeofT : Nat) (ops : List BufferOp) :
    ∀ (g : GraphicsDevice) (s : D3D11ConstantBuffer), Consistent g s.m_buffer →
      CallsPassCurrent g.log →
      CallsPassCurrent (runBuffer sizeofT ops g s).1.log ∧
      ∀ s1, (runBuffer sizeofT ops g s).2 = .ok s1 →
        Consistent (runBuffer sizeofT ops g s).1 s1.m_buffer := by
  induction ops with
  | nil =>
    intro g s hc hl
    refine ⟨hl, ?_⟩
    intro s1 hs1
    simp only [runBuffer, Except.ok.injEq] at hs1
    subst hs1
    exact hc
  | cons op rest ih =>
    intro g s hc hl
    have hstep := buffer_step sizeofT op hc hl
    unfold runBuffer
    rcases hres : op.apply sizeofT g s with ⟨g1, r⟩
    rw [hres] at hstep
    cases r with
    | error c => exact ⟨hstep.1, by intro s1 hs1; simp at hs1⟩
    | ok s1 => exact ih g1 s1 (hstep.2 s1 rfl) hstep.1

theorem blobIds_append (l1 l2 : List DeviceEvent) :
    blobIds (l1 ++ l2) = blobIds l1 ++ blobIds l2 := by
  simp [blobIds]

theorem blobIds_append_blobFree (log : List DeviceEvent) (e : DeviceEvent)
    (he : e.isBlobFree = true) : blobIds (log ++ [e]) = blobIds log := by
  cases e <;> simp_all [blobIds, DeviceEvent.isBlobFree]

theorem blobFresh_append {g : GraphicsDevice} (hf : BlobFresh g) (e : DeviceEvent)
    (he : e.isBlobFree = true) (n : Nat) (hn : g.nextId ≤ n) :
    BlobFresh ⟨g.log ++ [e], n⟩ := by
  intro id hid
  rw [blobIds_append_blobFree _ _ he] at hid
  exact lt_of_lt_of_le (hf id hid) hn

theorem blobFresh_release {g : GraphicsDevice} (hf : BlobFresh g) (h : Handle) :
    BlobFresh (SAFE_RELEASE g h).1 := by
  cases h with
  | none => exact hf
  | some id => exact blobFresh_append hf (DeviceEvent.released id) rfl _ (le_refl _)

theorem SAFE_RELEASE_nextId (g : GraphicsDevice) (h : Handle) :
    (SAFE_RELEASE g h).1.nextId = g.nextId := by
  cases h <;> rfl

theorem blobCreated_mem_blobIds {log : List DeviceEvent} {n : Nat} {code : List Nat}
    (h : DeviceEvent.blobCreated n code ∈ log) : n ∈ blobIds log := by
  simp only [blobIds, List.mem_filterMap]
  exact ⟨_, h, rfl⟩

theorem findSome_blob_none (log : List DeviceEvent) (n : Nat) (hn : n ∉ blobIds log) :
    log.findSome? (blobCreatedWith n) = none := by
  rw [List.findSome?_eq_none_iff]
  intro x hx
  cases x <;> simp [blobCreatedWith]
  rename_i id code
  intro h
  subst h
  exact hn (blobCreated_mem_blobIds hx)

theorem blobReleased_mem_blobIds {log : List DeviceEvent} {n : Nat}
    (h : DeviceEvent.blobReleased n ∈ log) : n ∈ blobIds log := by
  simp only [blobIds, List.mem_filterMap]
  exact ⟨_, h, rfl⟩

theorem blobContents_new (log : List DeviceEvent) (n : Nat) (code : List Nat)
    (hn : n ∉ blobIds log) :
    blobContents (log ++ [DeviceEvent.blobCreated n code]) n = some code := by
  have h1 : DeviceEvent.blobReleased n ∉ log := fun h => hn (blobReleased_mem_blobIds h)
  simp only [blobContents, List.mem_append, List.mem_singleton, h1, false_or, if_false,
    List.findSome?_append, reduceCtorEq]
  rw [findSome_blob_none log n hn]
  simp [List.findSome?, blobCreatedWith]

theorem blobContents_append {log : List DeviceEvent} {b : Nat} {code : List Nat}
    (h : blobContents log b = some code) (e : DeviceEvent)
    (he : e ≠ DeviceEvent.blobReleased b) :
    blobContents (log ++ [e]) b = some code := by
  unfold blobContents at h ⊢
  by_cases hr : DeviceEvent.blobReleased b ∈ log
  · simp [hr] at h
  · have hr1 : DeviceEvent.blobReleased b ∉ log ++ [e] := by
      simp only [List.mem_append, List.mem_singleton, not_or]
      exact ⟨hr, fun h => he h.symm⟩
    simp only [hr, if_false] at h
    simp only [hr1, if_false, List.findSome?_append, h]
    rfl

theorem blobContents_release {g : GraphicsDevice} {b : Nat} {code : List Nat}
    (h : blobContents g.log b = some code) (p : Handle) :
    blobContents (SAFE_RELEASE g p).1.log b = some code := by
  cases p with
  | none => exact h
  | some id => exact blobContents_append h _ (by simp)

/-- The outcome of `reset` on an adapter that holds a valid blob. -/
theorem shader_reset_eq (hr : Bool) (g : GraphicsDevice) (s : D3D11PixelShader)
    (b : Nat) (code : List Nat) (hb : s.m_blob = some b)
    (hcode : blobContents g.log b = some code) :
    s.reset hr g =
      if hr then
        (⟨(SAFE_RELEASE g s.m_shader).1.log
            ++ [DeviceEvent.created g.nextId (DeviceObject.pixelShader code)], g.nextId + 1⟩,
          .ok ⟨some g.nextId, some b, s.m_filename, s.m_hash64⟩)
      else ((SAFE_RELEASE g s.m_shader).1, .error (Crash.fatal "D3D_VALIDATE")) := by
  have h1 := blobContents_release hcode s.m_shader
  cases hr <;>
    simp [D3D11PixelShader.reset, D3D11PixelShader.release, hb, h1, createObject,
      SAFE_RELEASE_nextId]

theorem shaderInv_fresh : ShaderInv GraphicsDevice.fresh D3D11PixelShader.construct :=
  ⟨consistent_fresh, by simp [BlobFresh, GraphicsDevice.fresh, blobIds],
   by simp [D3D11PixelShader.construct]⟩

theorem mem_blobIds_of_contents {log : List DeviceEvent} {b : Nat} {code : List Nat}
    (h : blobContents log b = some code) : b ∈ blobIds log := by
  unfold blobContents at h
  by_cases hr : DeviceEvent.blobReleased b ∈ log
  · simp [hr] at h
  · simp only [hr, if_false] at h
    obtain ⟨x, hx, hxc⟩ := List.exists_of_findSome?_eq_some h
    cases x <;> simp [blobCreatedWith] at hxc
    rename_i id c
    exact hxc.1 ▸ blobCreated_mem_blobIds hx

theorem shader_release_inv {g : GraphicsDevice} {s : D3D11PixelShader} (hi : ShaderInv g s) :
    ShaderInv (s.release g).1 (s.release g).2 := by
  refine ⟨?_, blobFresh_release hi.blobFresh _, ?_⟩
  · show Consistent (SAFE_RELEASE g s.m_shader).1 (SAFE_RELEASE g s.m_shader).2
    rw [SAFE_RELEASE_snd]
    exact consistent_release hi.consistent
  · intro b hb
    obtain ⟨code, hcode⟩ := hi.blobValid b hb
    exact ⟨code, blobContents_release hcode _⟩

theorem shader_reset_inv (hr : Bool) {g : GraphicsDevice} {s : D3D11PixelShader}
    (hi : ShaderInv g s) (hl : CallsPassCurrent g.log) :
    CallsPassCurrent (s.reset hr g).1.log ∧
    ∀ s1, (s.reset hr g).2 = .ok s1 → ShaderInv (s.reset hr g).1 s1 := by
  have l1 := callsPassCurrent_release hl s.m_shader
  cases hb : s.m_blob with
  | none =>
    simp [D3D11PixelShader.reset, D3D11PixelShader.release, hb]
    exact l1
  | some b =>
    obtain ⟨code, hcode⟩ := hi.blobValid b hb
    rw [shader_reset_eq hr g s b code hb hcode]
    cases hr with
    | false =>
      simp only [Bool.false_eq_true, if_false]
      exact ⟨l1, by intro s1 hs1; simp at hs1⟩
    | true =>
      simp only [if_true]
      have c1 := consistent_create (consistent_release hi.consistent)
        (DeviceObject.pixelShader code)
      rw [SAFE_RELEASE_nextId] at c1
      refine ⟨callsPassCurrent_append l1 _ (by simp [contextHandle]), ?_⟩
      intro s1 hs1
      simp only [Except.ok.injEq] at hs1
      subst hs1
      refine ⟨c1, ?_, ?_⟩
      · have := blobFresh_append (blobFresh_release hi.blobFresh s.m_shader)
          (DeviceEvent.created g.nextId (DeviceObject.pixelShader code)) rfl (g.nextId + 1)
          (by rw [SAFE_RELEASE_nextId]; omega)
        exact this
      · intro b1 hb1
        simp only [Option.some.injEq] at hb1
        subst hb1
        exact ⟨code, blobContents_append (blobContents_release hcode _) _ (by simp)⟩

/-- The device and the adapter on which `load` calls `reset`, after a successful compile. -/
theorem shader_load_eq (T : ShaderToolchain) (hr : Bool) (g : GraphicsDevice)
    (s : D3D11PixelShader) (filename : String) (code : List Nat)
    (hcompile : T.CompileShader filename "pixelShaderMain" "ps_4_0" = some code) :
    s.load T hr g filename =
      D3D11PixelShader.reset hr
        ⟨(SAFE_RELEASE_blob (SAFE_RELEASE g s.m_shader).1 s.m_blob).1.log
            ++ [DeviceEvent.registerAsset (T.hash64 filename)]
            ++ [DeviceEvent.compileShader filename "pixelShaderMain" "ps_4_0"]
            ++ [DeviceEvent.blobCreated g.nextId code], g.nextId + 1⟩
        ⟨none, some g.nextId, filename, T.hash64 filename⟩ := by
  have hn : (SAFE_RELEASE_blob (SAFE_RELEASE g s.m_shader).1 s.m_blob).1.nextId = g.nextId := by
    cases s.m_blob <;> simp [SAFE_RELEASE_blob, GraphicsDevice.record, SAFE_RELEASE_nextId]
  simp [D3D11PixelShader.load, D3D11PixelShader.release, hcompile, GraphicsDevice.record, hn,
    SAFE_RELEASE_snd]

/-- After a successful compile, `load` calls `reset` in a state where the
adapter holds the new blob and the blob holds the compiled bytecode. -/
theorem shader_load_prepared (T : ShaderToolchain) (hr : Bool) (filename : String)
    {g : GraphicsDevice} {s : D3D11PixelShader}
    (hi : ShaderInv g s) (hl : CallsPassCurrent g.log) :
    (T.CompileShader filename "pixelShaderMain" "ps_4_0" = none →
      CallsPassCurrent (s.load T hr g filename).1.log ∧
      (s.load T hr g filename).2 = .error (Crash.fatal "CompileShader failed")) ∧
    (∀ code, T.CompileShader filename "pixelShaderMain" "ps_4_0" = some code →
      ∃ g3 : GraphicsDevice,
        s.load T hr g filename
          = D3D11PixelShader.reset hr g3 ⟨none, some g.nextId, filename, T.hash64 filename⟩ ∧
        ShaderInv g3 ⟨none, some g.nextId, filename, T.hash64 filename⟩ ∧
        CallsPassCurrent g3.log ∧ blobContents g3.log g.nextId = some code ∧
        g3.nextId = g.nextId + 1) := by
  -- the device after the two releases
  have hA : ∃ gB : GraphicsDevice,
      gB = (SAFE_RELEASE_blob (SAFE_RELEASE g s.m_shader).1 s.m_blob).1 ∧
      Consistent gB none ∧ BlobFresh gB ∧ CallsPassCurrent gB.log ∧ gB.nextId = g.nextId := by
    refine ⟨_, rfl, ?_⟩
    have c1 := consistent_release hi.consistent
    have f1 := blobFresh_release hi.blobFresh s.m_shader
    have l1 := callsPassCurrent_release hl s.m_shader
    cases hb : s.m_blob with
    | none => exact ⟨c1, f1, l1, SAFE_RELEASE_nextId _ _⟩
    | some b =>
      obtain ⟨code, hcode⟩ := hi.blobValid b hb
      have hmem := mem_blobIds_of_contents (blobContents_release hcode s.m_shader)
      refine ⟨consistent_neutral c1 (DeviceEvent.blobReleased b) rfl _ (le_refl _), ?_,
        callsPassCurrent_append l1 _ (by simp [contextHandle]), SAFE_RELEASE_nextId _ _⟩
      intro id hid
      simp only [SAFE_RELEASE_blob, GraphicsDevice.record] at hid
      rw [blobIds_append, List.mem_append] at hid
      rcases hid with hid | hid
      · exact f1 id hid
      · simp [blobIds] at hid
        subst hid
        exact f1 _ hmem
  obtain ⟨gB, hgB, cB, fB, lB, nB⟩ := hA
  have cC := consistent_neutral
    (consistent_neutral cB (DeviceEvent.registerAsset (T.hash64 filename)) rfl _ (le_refl _))
    (DeviceEvent.compileShader filename "pixelShaderMain" "ps_4_0") rfl _ (le_refl _)
  have fC := blobFresh_append
    (blobFresh_append fB (DeviceEvent.registerAsset (T.hash64 filename)) rfl _ (le_refl _))
    (DeviceEvent.compileShader filename "pixelShaderMain" "ps_4_0") rfl _ (le_refl _)
  have lC := callsPassCurrent_append
    (callsPassCurrent_append lB (DeviceEvent.registerAsset (T.hash64 filename))
      (by simp [contextHandle]))
    (DeviceEvent.compileShader filename "pixelShaderMain" "ps_4_0") (by simp [contextHandle])
  constructor
  · intro hcompile
    constructor
    · simp only [D3D11PixelShader.load, D3D11PixelShader.release, hcompile,
        GraphicsDevice.record]
      rw [← hgB]
      exact lC
    · simp only [D3D11PixelShader.load, hcompile]
  · intro code hcompile
    refine ⟨_, shader_load_eq T hr g s filename code hcompile, ?_, ?_, ?_, rfl⟩
    · rw [← hgB, ← nB]
      refine ⟨consistent_neutral cC (DeviceEvent.blobCreated gB.nextId code) rfl _
        (Nat.le_succ _), ?_, ?_⟩
      · intro id hid
        rw [blobIds_append, List.mem_append] at hid
        show id < gB.nextId + 1
        rcases hid with hid | hid
        · exact Nat.lt_succ_of_lt (fC id hid)
        · simp [blobIds] at hid
          omega
      · intro b hb
        simp only [Option.some.injEq] at hb
        subst hb
        exact ⟨code, blobContents_new _ _ _ (fun h => lt_irrefl _ (fC _ h))⟩
    · rw [← hgB]
      exact callsPassCurrent_append lC _ (by simp [contextHandle])
    · rw [← hgB, ← nB]
      exact blobContents_new _ _ _ (fun h => lt_irrefl _ (fC _ h))

theorem shader_load_inv (T : ShaderToolchain) (hr : Bool) (filename : String)
    {g : GraphicsDevice} {s : D3D11PixelShader}
    (hi : ShaderInv g s) (hl : CallsPassCurrent g.log) :
    CallsPassCurrent (s.load T hr g filename).1.log ∧
    ∀ s1, (s.load T hr g filename).2 = .ok s1 → ShaderInv (s.load T hr g filename).1 s1 := by
  have hp := shader_load_prepared T hr filename hi hl
  cases hcompile : T.CompileShader filename "pixelShaderMain" "ps_4_0" with
  | none =>
    obtain ⟨h1, h2⟩ := hp.1 hcompile
    exact ⟨h1, by intro s1 hs1; rw [h2] at hs1; simp at hs1⟩
  | some code =>
    obtain ⟨g3, heq, hi3, hl3, _, _⟩ := hp.2 code hcompile
    rw [heq]
    exact shader_reset_inv hr hi3 hl3

theorem shader_step (T : ShaderToolchain) (op : ShaderOp) {g : GraphicsDevice}
    {s : D3D11PixelShader} (hi : ShaderInv g s) (hl : CallsPassCurrent g.log) :
    CallsPassCurrent (op.apply T g s).1.log ∧
    ∀ s1, (op.apply T g s).2 = .ok s1 → ShaderInv (op.apply T g s).1 s1 := by
  cases op with
  | load hr filename => exact shader_load_inv T hr filename hi hl
  | reset hr => exact shader_reset_inv hr hi hl
  | release =>
    refine ⟨callsPassCurrent_release hl s.m_shader, ?_⟩
    intro s1 hs1
    simp only [ShaderOp.apply, Except.ok.injEq] at hs1
    subst hs1
    exact shader_release_inv hi
  | bind =>
    refine ⟨callsPassCurrent_append hl _ ?_, ?_⟩
    · intro h hh
      simp only [contextHandle, Option.some.injEq] at hh
      exact hh ▸ passesCurrent_of_consistent hi.consistent
    · intro s1 hs1
      simp only [ShaderOp.apply, D3D11PixelShader.bind, Except.ok.injEq] at hs1
      subst hs1
      refine ⟨consistent_neutral hi.consistent (DeviceEvent.PSSetShader s.m_shader) rfl _
        (le_refl _), blobFresh_append hi.blobFresh (DeviceEvent.PSSetShader s.m_shader) rfl _
        (le_refl _), ?_⟩
      intro b hb
      obtain ⟨code, hcode⟩ := hi.blobValid b hb
      exact ⟨code, blobContents_append hcode _ (by simp)⟩

theorem runShader_invariant (T : ShaderToolchain) (ops : List ShaderOp) :
    ∀ (g : GraphicsDevice) (s : D3D11PixelShader), ShaderInv g s →
      CallsPassCurrent g.log →
      CallsPassCurrent (runShader T ops g s).1.log ∧
      ∀ s1, (runShader T ops g s).2 = .ok s1 → ShaderInv (runShader T ops g s).1 s1 := by
  induction ops with
  | nil =>
    intro g s hi hl
    refine ⟨hl, ?_⟩
    intro s1 hs1
    simp only [runShader, Except.ok.injEq] at hs1
    subst hs1
    exact hi
  | cons op rest ih =>
    intro g s hi hl
    have hstep := shader_step T op hi hl
    unfold runShader
    rcases hres : op.apply T g s with ⟨g1, r⟩
    rw [hres] at hstep
    cases r with
    | error c => exact ⟨hstep.1, by intro s1 hs1; simp at hs1⟩
    | ok s1 => exact ih g1 s1 (hstep.2 s1 rfl) hstep.1

theorem keepsBlob_refl {blob : Nat} {code : List Nat} {log : List DeviceEvent}
    (h : blobContents log blob = some code) : KeepsBlob blob code log log :=
  ⟨h, rfl, [], by simp, by simp⟩

theorem keepsBlob_trans {blob : Nat} {code : List Nat} {l1 l2 l3 : List DeviceEvent}
    (h12 : KeepsBlob blob code l1 l2) (h23 : KeepsBlob blob code l2 l3) :
    KeepsBlob blob code l1 l3 := by
  obtain ⟨_, c12, m12, e12, a12⟩ := h12
  obtain ⟨b23, c23, m23, e23, a23⟩ := h23
  refine ⟨b23, c23.trans c12, m12 ++ m23, by rw [e23, e12, List.append_assoc], ?_⟩
  intro c hc
  rcases List.mem_append.mp hc with h | h
  · exact a12 c h
  · exact a23 c h

theorem keepsBlob_release {blob : Nat} {code : List Nat} {g : GraphicsDevice}
    (h : blobContents g.log blob = some code) (p : Handle) :
    KeepsBlob blob code g.log (SAFE_RELEASE g p).1.log := by
  cases p with
  | none => exact keepsBlob_refl h
  | some id =>
    exact ⟨blobContents_append h _ (by simp), by simp [SAFE_RELEASE, GraphicsDevice.record,
      compileCount, List.filter_append], [], by simp [SAFE_RELEASE, GraphicsDevice.record,
      shaderBytecodes], by simp⟩

theorem shader_step_keeps (T : ShaderToolchain) (blob : Nat) (code : List Nat) (op : ShaderOp)
    (hop : op.isLoad = false) (g : GraphicsDevice) (s : D3D11PixelShader)
    (hb : s.m_blob = some blob) (hcode : blobContents g.log blob = some code) :
    KeepsBlob blob code g.log (op.apply T g s).1.log ∧
    (∀ c, (op.apply T g s).2 = .error c → c = Crash.fatal "D3D_VALIDATE") ∧
    (∀ s1, (op.apply T g s).2 = .ok s1 → s1.m_blob = some blob) := by
  cases op with
  | load hr filename => simp [ShaderOp.isLoad] at hop
  | release =>
    refine ⟨keepsBlob_release hcode _, by intro c hc; simp [ShaderOp.apply] at hc, ?_⟩
    intro s1 hs1
    simp only [ShaderOp.apply, D3D11PixelShader.release, Except.ok.injEq] at hs1
    subst hs1
    exact hb
  | bind =>
    refine ⟨⟨blobContents_append hcode _ (by simp), by simp [ShaderOp.apply,
      D3D11PixelShader.bind, GraphicsDevice.record, compileCount, List.filter_append], [],
      by simp [ShaderOp.apply, D3D11PixelShader.bind, GraphicsDevice.record, shaderBytecodes],
      by simp⟩, by intro c hc; simp [ShaderOp.apply] at hc, ?_⟩
    intro s1 hs1
    simp only [ShaderOp.apply, D3D11PixelShader.bind, Except.ok.injEq] at hs1
    subst hs1
    exact hb
  | reset hr =>
    have k1 := keepsBlob_release hcode s.m_shader
    simp only [ShaderOp.apply]
    rw [shader_reset_eq hr g s blob code hb hcode]
    cases hr with
    | false =>
      simp only [Bool.false_eq_true, if_false]
      exact ⟨k1, by intro c hc; simpa using hc.symm, by intro s1 hs1; simp at hs1⟩
    | true =>
      simp only [if_true]
      refine ⟨keepsBlob_trans k1 ⟨blobContents_append k1.1 _ (by simp), ?_, [code], ?_, ?_⟩,
        by intro c hc; simp at hc, ?_⟩
      · simp [compileCount, List.filter_append]
      · simp [shaderBytecodes]
      · simp
      · intro s1 hs1
        simp only [Except.ok.injEq] at hs1
        subst hs1
        rfl

theorem runShader_keeps (T : ShaderToolchain) (blob : Nat) (code : List Nat)
    (ops : List ShaderOp) (hops : ∀ op ∈ ops, op.isLoad = false) :
    ∀ (g : GraphicsDevice) (s : D3D11PixelShader), s.m_blob = some blob →
      blobContents g.log blob = some code →
      KeepsBlob blob code g.log (runShader T ops g s).1.log ∧
      (∀ c, (runShader T ops g s).2 = .error c → c = Crash.fatal "D3D_VALIDATE") ∧
      (∀ s1, (runShader T ops g s).2 = .ok s1 → s1.m_blob = some blob) := by
  induction ops with
  | nil =>
    intro g s hb hcode
    refine ⟨keepsBlob_refl hcode, by intro c hc; simp [runShader] at hc, ?_⟩
    intro s1 hs1
    simp only [runShader, Except.ok.injEq] at hs1
    subst hs1
    exact hb
  | cons op rest ih =>
    intro g s hb hcode
    have hstep := shader_step_keeps T blob code op (hops op (by simp)) g s hb hcode
    unfold runShader
    rcases hres : op.apply T g s with ⟨g1, r⟩
    rw [hres] at hstep
    cases r with
    | error c => exact ⟨hstep.1, by intro c1 hc1; exact hstep.2.1 c1 hc1,
        by intro s1 hs1; simp at hs1⟩
    | ok s1 =>
      have hrest := ih (fun op1 h1 => hops op1 (List.mem_cons_of_mem _ h1)) g1 s1
        (hstep.2.2 s1 rfl) hstep.1.1
      exact ⟨keepsBlob_trans hstep.1 hrest.1, hrest.2.1, hrest.2.2⟩

/-- C7: `release` is a no-op on an unallocated adapter and is idempotent, for
`D3D11ConstantBuffer` and for `D3D11PixelShader`: with a null device handle
it leaves the device (no call is logged) and the adapter as they are, and in
every state a second `release` changes neither the adapter nor the device, so
the released objects are those of a single `release`. -/
theorem release_noop_and_idempotent :
    (∀ g : GraphicsDevice, D3D11ConstantBuffer.release g ⟨none⟩ = (g, ⟨none⟩)) ∧
    (∀ (g : GraphicsDevice) (s : D3D11ConstantBuffer),
      (s.release g).2.release (s.release g).1 = s.release g) ∧
    (∀ (g : GraphicsDevice) (blob : Handle) (filename : String) (hash : Nat),
      D3D11PixelShader.release g ⟨none, blob, filename, hash⟩
        = (g, ⟨none, blob, filename, hash⟩)) ∧
    (∀ (g : GraphicsDevice) (s : D3D11PixelShader),
      (s.release g).2.release (s.release g).1 = s.release g) := by
  refine ⟨fun _ => rfl, ?_, fun _ _ _ _ => rfl, ?_⟩
  · intro g s
    cases h : s.m_buffer <;> simp [D3D11ConstantBuffer.release, SAFE_RELEASE, h]
  · intro g s
    cases h : s.m_shader <;> simp [D3D11PixelShader.release, SAFE_RELEASE, h]

/-- C9 (counterexample): on a freshly constructed `D3D11ConstantBuffer`,
`bindVertexShader` reaches the immediate context with a `NULL` buffer, so
not every bind passes a handle created by an earlier `reset`. -/
theorem bind_before_reset_passes_null :
    (runBuffer 16 [BufferOp.bindVertexShader 0] GraphicsDevice.fresh
        D3D11ConstantBuffer.construct).1.log
      = [DeviceEvent.VSSetConstantBuffers 0 none] ∧
    ¬ BoundOnlyAfterReset
      (runBuffer 16 [BufferOp.bindVertexShader 0] GraphicsDevice.fresh
        D3D11ConstantBuffer.construct).1.log := by
  refine ⟨rfl, ?_⟩
  intro h
  obtain ⟨id, hid, _⟩ := h [] (DeviceEvent.VSSetConstantBuffers 0 none) [] none rfl rfl
  cases hid

/-- C9 (amended): for every sequence of public operations applied to a freshly
constructed `D3D11ConstantBuffer` or `D3D11PixelShader`, every `update` or
bind call that reaches the immediate context passes the current handle of the
adapter: `NULL` when the adapter holds no live device object (no `reset` has
succeeded since construction or since the last `release`), and otherwise the
non-null handle of its only live object, created by an earlier successful
`reset` and not released since. -/
theorem calls_pass_current_handle (sizeofT : Nat) (ops : List BufferOp)
    (T : ShaderToolchain) (shaderOps : List ShaderOp) :
    CallsPassCurrent
      (runBuffer sizeofT ops GraphicsDevice.fresh D3D11ConstantBuffer.construct).1.log ∧
    CallsPassCurrent
      (runShader T shaderOps GraphicsDevice.fresh D3D11PixelShader.construct).1.log :=
  ⟨(runBuffer_invariant sizeofT ops GraphicsDevice.fresh D3D11ConstantBuffer.construct
      consistent_fresh callsPassCurrent_nil).1,
   (runShader_invariant T shaderOps _ _ shaderInv_fresh callsPassCurrent_nil).1⟩

/-- C10: the bytecode blob of the pixel shader survives device loss.  A failed
compile ends `load` with the fatal assertion before any device object is
created.  After a successful `load`, in any reachable state, `m_blob` is
non-null and holds the bytecode just compiled; along every sequence of
`release`, `reset` and `bind` that follows, the blob is neither changed nor
freed, the compiler is not called again, every shader object created is
created from that bytecode, `reset` never dereferences a null or dead blob
(the only possible crash is a failed creation), and `release` followed by
`reset` recreates the shader object from the same bytecode. -/
theorem pixelShader_blob_preserved (T : ShaderToolchain) (history : List ShaderOp)
    (g : GraphicsDevice) (s : D3D11PixelShader)
    (hhistory : runShader T history GraphicsDevice.fresh D3D11PixelShader.construct
      = (g, .ok s))
    (hr : Bool) (filename : String) (ops : List ShaderOp)
    (hops : ∀ op ∈ ops, op.isLoad = false) :
    (T.CompileShader filename "pixelShaderMain" "ps_4_0" = none →
      (s.load T hr g filename).2 = .error (Crash.fatal "CompileShader failed") ∧
      createdIds (s.load T hr g filename).1.log = createdIds g.log) ∧
    (∀ g0 s0, s.load T hr g filename = (g0, .ok s0) →
      ∃ blob code, T.CompileShader filename "pixelShaderMain" "ps_4_0" = some code ∧
        s0.m_blob = some blob ∧ blobContents g0.log blob = some code ∧
        KeepsBlob blob code g0.log (runShader T ops g0 s0).1.log ∧
        (∀ c, (runShader T ops g0 s0).2 = .error c → c = Crash.fatal "D3D_VALIDATE") ∧
        (∀ g1 s1, runShader T ops g0 s0 = (g1, .ok s1) →
          s1.m_blob = some blob ∧
          ∃ g2 s2, runShader T [ShaderOp.release, ShaderOp.reset true] g1 s1 = (g2, .ok s2) ∧
            s2.m_blob = some blob ∧ s2.m_shader = some g1.nextId ∧
            shaderBytecodes g2.log = shaderBytecodes g1.log ++ [code] ∧
            compileCount g2.log = compileCount g1.log)) := by
  have hinv := runShader_invariant T history _ _ shaderInv_fresh callsPassCurrent_nil
  rw [hhistory] at hinv
  have hi := hinv.2 s rfl
  have hl := hinv.1
  have hp := shader_load_prepared T hr filename hi hl
  constructor
  · intro hnone
    refine ⟨(hp.1 hnone).2, ?_⟩
    simp only [D3D11PixelShader.load, D3D11PixelShader.release, hnone, GraphicsDevice.record]
    cases s.m_shader <;> cases s.m_blob <;>
      simp [SAFE_RELEASE, SAFE_RELEASE_blob, GraphicsDevice.record, createdIds]
  · intro g0 s0 hload
    cases hcompile : T.CompileShader filename "pixelShaderMain" "ps_4_0" with
    | none =>
      have := (hp.1 hcompile).2
      rw [hload] at this
      simp at this
    | some code =>
      obtain ⟨g3, heq, hi3, hl3, hc3, hn3⟩ := hp.2 code hcompile
      have hk := shader_step_keeps T g.nextId code (ShaderOp.reset hr) rfl g3
        ⟨none, some g.nextId, filename, T.hash64 filename⟩ rfl hc3
      simp only [ShaderOp.apply] at hk
      rw [← heq, hload] at hk
      have hb0 : s0.m_blob = some g.nextId := hk.2.2 s0 rfl
      have hc0 : blobContents g0.log g.nextId = some code := hk.1.1
      have hrun := runShader_keeps T g.nextId code ops hops g0 s0 hb0 hc0
      refine ⟨g.nextId, code, rfl, hb0, hc0, hrun.1, hrun.2.1, ?_⟩
      intro g1 s1 hrun1
      rw [hrun1] at hrun
      have hb1 : s1.m_blob = some g.nextId := hrun.2.2 s1 rfl
      have hc1 : blobContents g1.log g.nextId = some code := hrun.1.1
      refine ⟨hb1, ?_⟩
      have hrel : blobContents (s1.release g1).1.log g.nextId = some code :=
        blobContents_release hc1 _
      have heq2 := shader_reset_eq true (s1.release g1).1 (s1.release g1).2 g.nextId code
        hb1 hrel
      simp only [if_true] at heq2
      have hrun2 : runShader T [ShaderOp.release, ShaderOp.reset true] g1 s1
          = D3D11PixelShader.reset true (s1.release g1).1 (s1.release g1).2 := by
        simp only [runShader, ShaderOp.apply, heq2]
      rw [heq2] at hrun2
      refine ⟨_, _, hrun2, rfl, ?_, ?_, ?_⟩
      · simp [D3D11PixelShader.release, SAFE_RELEASE_nextId]
      · cases hs : s1.m_shader <;>
          simp [D3D11PixelShader.release, SAFE_RELEASE, GraphicsDevice.record,
            shaderBytecodes, hs]
      · cases hs : s1.m_shader <;>
          simp [D3D11PixelShader.release, SAFE_RELEASE, GraphicsDevice.record,
            compileCount, List.filter_append, hs]

/-- C10 at a concrete run: a shader loaded from `"ok.hlsl"`, then released,
reset and bound. -/
theorem pixelShader_blob_preserved_witness :
    runShader sampleToolchain [] GraphicsDevice.fresh D3D11PixelShader.construct
      = (GraphicsDevice.fresh, .ok D3D11PixelShader.construct) ∧
    (∀ op ∈ [ShaderOp.release, ShaderOp.reset true, ShaderOp.bind], op.isLoad = false) ∧
    D3D11PixelShader.construct.load sampleToolchain true GraphicsDevice.fresh "ok.hlsl"
      = (sampleShaderDevice, .ok sampleShader) ∧
    (∃ blob code, sampleShader.m_blob = some blob ∧
      blobContents (runShader sampleToolchain
        [ShaderOp.release, ShaderOp.reset true, ShaderOp.bind] sampleShaderDevice
        sampleShader).1.log blob = some code) :=
  ⟨rfl, by decide, rfl, by
    obtain ⟨blob, code, _, h1, _, h2, _⟩ :=
      (pixelShader_blob_preserved sampleToolchain [] GraphicsDevice.fresh
        D3D11PixelShader.construct rfl true "ok.hlsl"
        [ShaderOp.release, ShaderOp.reset true, ShaderOp.bind] (by decide)).2
        sampleShaderDevice sampleShader rfl
    exact ⟨blob, code, h1, h2.1⟩⟩

end d3d11
